import Mathlib

/-!
Verification of the SRpy spatial-reasoning core (`src/SpatialObject.py`,
`src/BBoxSector.py`, `src/SpatialBasics.py`, `src/vector3.py`,
`src/Vector2.py`) against its natural-language specification.

The Python float arithmetic is modelled over the real numbers `ℝ`.
Objects are modelled without a reasoning context (`context = None`), the
configuration exercised by the repository's own unit tests; the shared
threshold configuration (`self.adjustment`) is passed explicitly as a
`SpatialAdjustment` argument, and the context's connectivity flag
(`self.context.deduce.connectivity`) is passed as an explicit boolean where
the source consults it.  The visibility step of the relation cascade
(`_deduce_visibility`) returns its input unchanged when the context is
absent (`if self.context is None: return result`), which is the situation
modelled here.
-/

open scoped Classical

noncomputable section

namespace SRpy

/-! ## Vectors (`src/vector3.py`, `src/Vector2.py`) -/

/-- 3D vector with real components, modelling `Vector3` (numpy-backed). -/
@[ext]
structure Vector3 where
  x : ℝ
  y : ℝ
  z : ℝ

namespace Vector3

def add (v w : Vector3) : Vector3 := ⟨v.x + w.x, v.y + w.y, v.z + w.z⟩

def sub (v w : Vector3) : Vector3 := ⟨v.x - w.x, v.y - w.y, v.z - w.z⟩

def scaleDiv (v : Vector3) (c : ℝ) : Vector3 := ⟨v.x / c, v.y / c, v.z / c⟩

/-- Euclidean norm, modelling `np.linalg.norm` / `Vector3.length`. -/
def length (v : Vector3) : ℝ := Real.sqrt (v.x ^ 2 + v.y ^ 2 + v.z ^ 2)

/-- Rotation about the y axis, modelling `Vector3.rotate`: the source first
negates the argument (`radians = -1 * radians`) and then applies the matrix
`[[cos, 0, sin], [0, 1, 0], [-sin, 0, cos]]`. -/
def rotate (v : Vector3) (radians : ℝ) : Vector3 :=
  ⟨Real.cos (-radians) * v.x + Real.sin (-radians) * v.z,
   v.y,
   -Real.sin (-radians) * v.x + Real.cos (-radians) * v.z⟩

end Vector3

/-- 2D vector, modelling `Vector2`. -/
@[ext]
structure Vector2 where
  x : ℝ
  y : ℝ

namespace Vector2

/-- Rotation modelling `Vector2.rotate`:
`new_x = x*cos - y*sin`, `new_y = x*sin + y*cos`. -/
def rotate (v : Vector2) (radians : ℝ) : Vector2 :=
  ⟨v.x * Real.cos radians - v.y * Real.sin radians,
   v.x * Real.sin radians + v.y * Real.cos radians⟩

end Vector2

/-! ## Enumerations and configuration (`src/SpatialBasics.py`) -/

/-- Calculation schema for the nearby radius (`NearbySchema`). -/
inductive NearbySchema where
  | fixed | circle | sphere | perimeter | area
deriving DecidableEq

/-- Calculation schema for sector sizes (`SectorSchema`). -/
inductive SectorSchema where
  | fixed | dimension | perimeter | area | nearby
deriving DecidableEq

/-- Existence kinds (`SpatialExistence`). -/
inductive SpatialExistence where
  | undefined | real | virtual | conceptual | aggregational
deriving DecidableEq

/-- Serialization string of an existence kind (`SpatialExistence.value`). -/
def SpatialExistence.value : SpatialExistence → String
  | .undefined => "undefined"
  | .real => "real"
  | .virtual => "virtual"
  | .conceptual => "conceptual"
  | .aggregational => "aggregational"

/-- String lookup (`SpatialExistence.named`); unknown names fall back to
`undefined`. -/
def SpatialExistence.named (s : String) : SpatialExistence :=
  if s = "undefined" then .undefined
  else if s = "real" then .real
  else if s = "virtual" then .virtual
  else if s = "conceptual" then .conceptual
  else if s = "aggregational" then .aggregational
  else .undefined

/-- Object causes (`ObjectCause`). -/
inductive ObjectCause where
  | unknown | plane_detected | object_detected | self_tracked
  | user_captured | user_generated | rule_produced | remote_created
deriving DecidableEq

/-- Serialization string of a cause (`ObjectCause.value`). -/
def ObjectCause.value : ObjectCause → String
  | .unknown => "unknown"
  | .plane_detected => "plane_detected"
  | .object_detected => "object_detected"
  | .self_tracked => "self_tracked"
  | .user_captured => "user_captured"
  | .user_generated => "user_generated"
  | .rule_produced => "rule_produced"
  | .remote_created => "remote_created"

/-- String lookup (`ObjectCause.named`); unknown names fall back to
`unknown`. -/
def ObjectCause.named (s : String) : ObjectCause :=
  if s = "unknown" then .unknown
  else if s = "plane_detected" then .plane_detected
  else if s = "object_detected" then .object_detected
  else if s = "self_tracked" then .self_tracked
  else if s = "user_captured" then .user_captured
  else if s = "user_generated" then .user_generated
  else if s = "rule_produced" then .rule_produced
  else if s = "remote_created" then .remote_created
  else .unknown

/-- Motion states (`MotionState`). -/
inductive MotionState where
  | unknown | stationary | idle | moving
deriving DecidableEq

/-- Serialization string of a motion state (`MotionState.value`). -/
def MotionState.value : MotionState → String
  | .unknown => "unknown"
  | .stationary => "stationary"
  | .idle => "idle"
  | .moving => "moving"

/-- Object shapes (`ObjectShape`). -/
inductive ObjectShape where
  | unknown | planar | cubical | spherical | cylindrical | conical
  | irregular | changing
deriving DecidableEq

/-- Serialization string of a shape (`ObjectShape.value`). -/
def ObjectShape.value : ObjectShape → String
  | .unknown => "unknown"
  | .planar => "planar"
  | .cubical => "cubical"
  | .spherical => "spherical"
  | .cylindrical => "cylindrical"
  | .conical => "conical"
  | .irregular => "irregular"
  | .changing => "changing"

/-- String lookup (`ObjectShape.named`); unknown names fall back to
`unknown`. -/
def ObjectShape.named (s : String) : ObjectShape :=
  if s = "planar" then .planar
  else if s = "cubical" then .cubical
  else if s = "spherical" then .spherical
  else if s = "cylindrical" then .cylindrical
  else if s = "conical" then .conical
  else if s = "irregular" then .irregular
  else if s = "changing" then .changing
  else .unknown

/-- Threshold configuration (`SpatialAdjustment`).  The two proportion
fields are `longRatio`/`thinRatio` in the source. -/
structure SpatialAdjustment where
  maxGap : ℝ := 0.02
  maxAngleDelta : ℝ := 0.05 * Real.pi
  sectorSchema : SectorSchema := .nearby
  sectorFactor : ℝ := 1.0
  sectorLimit : ℝ := 2.5
  nearbySchema : NearbySchema := .circle
  nearbyFactor : ℝ := 2.0
  nearbyLimit : ℝ := 2.5
  longRatioFactor : ℝ := 4.0
  thinRatioFactor : ℝ := 10.0

/-- Module-level default configuration (`defaultAdjustment`). -/
def defaultAdjustment : SpatialAdjustment := {}

/-- Four plausibility scalars (`ObjectConfidence`). -/
structure ObjectConfidence where
  pose : ℝ := 0.0
  dimension : ℝ := 0.0
  label : ℝ := 0.0
  look : ℝ := 0.0

namespace ObjectConfidence

/-- Mean of pose/dimension/label (`ObjectConfidence.value`). -/
def value (c : ObjectConfidence) : ℝ := (c.pose + c.dimension + c.label) / 3

/-- Mean of pose/dimension (`ObjectConfidence.spatial`). -/
def spatial (c : ObjectConfidence) : ℝ := (c.pose + c.dimension) / 2

/-- Uniform assignment of pose/dimension/label (`setValue`); `look` is left
unchanged. -/
def setValue (c : ObjectConfidence) (v : ℝ) : ObjectConfidence :=
  { c with pose := v, dimension := v, label := v }

end ObjectConfidence

/-! ## Auxiliary-data values and dictionaries -/

/-- Value stored in a Python dict as used by `asDict`/`fromAny`/`setData`:
a number (int or float), a bool, a string, a list of numbers, or the nested
confidence dictionary. -/
inductive DVal where
  | num (v : ℝ)
  | bool (b : Bool)
  | str (s : String)
  | vec (l : List ℝ)
  | conf (pose dimension label look : ℝ)

/-- Association list modelling a Python `dict` with string keys (insertion
ordered, unique keys). -/
abbrev Dict := List (String × DVal)

/-- Key lookup (`dict.get`). -/
def dictGet (d : Dict) (k : String) : Option DVal :=
  (d.find? (fun p => p.1 == k)).map (·.2)

/-- Key assignment (`dict[k] = v`): an existing key keeps its position and
gets the new value, a new key is appended. -/
def dictSet (d : Dict) (k : String) (v : DVal) : Dict :=
  if d.any (fun p => p.1 == k) then
    d.map (fun p => if p.1 == k then (k, v) else p)
  else
    d ++ [(k, v)]

/-- Dict merge (`dict.update`): assign every entry of `src` in order. -/
def dictUpdate (d src : Dict) : Dict :=
  src.foldl (fun acc p => dictSet acc p.1 p.2) d

/-! ## Sector flags (`src/BBoxSector.py`) -/

/-- 7-bit sector value (`BBoxSector` over `BBoxSectorFlags`):
inside, ahead, behind, left, right, over, under. -/
structure BBoxSector where
  i : Bool := false
  a : Bool := false
  b : Bool := false
  l : Bool := false
  r : Bool := false
  o : Bool := false
  u : Bool := false
deriving DecidableEq

namespace BBoxSector

/-- Sector with no flags set (`BBoxSector()`). -/
def empty : BBoxSector := {}

/-- Sector with only the inside flag set (`BBoxSector(BBoxSectorFlags.i)`). -/
def inside : BBoxSector := { i := true }

/-- Number of set bits outside the inside state (`divergencies`): 0 when
the inside flag is present, else the popcount of the flag word. -/
def divergencies (s : BBoxSector) : ℕ :=
  if s.i then 0
  else s.a.toNat + s.b.toNat + s.l.toNat + s.r.toNat + s.o.toNat + s.u.toNat

/-- Number of directional (non-inside) bits set. -/
def dirCount (s : BBoxSector) : ℕ :=
  s.a.toNat + s.b.toNat + s.l.toNat + s.r.toNat + s.o.toNat + s.u.toNat

end BBoxSector

/-! ## Spatial objects (`src/SpatialObject.py`) -/

/-- Spatial-object state (`SpatialObject.__init__`).  Wall-clock fields
(`created`, `updated`) and the back-reference `context` are not part of the
state: time deltas enter as explicit parameters, and the context is absent
(see the module docstring). -/
structure SpatialObject where
  id : String
  position : Vector3 := ⟨0, 0, 0⟩
  width : ℝ := 1.0
  height : ℝ := 1.0
  depth : ℝ := 1.0
  angle : ℝ := 0.0
  label : String := ""
  existence : SpatialExistence := .real
  cause : ObjectCause := .unknown
  type : String := ""
  supertype : String := ""
  look : String := ""
  data : Option Dict := none
  immobile : Bool := false
  velocity : Vector3 := ⟨0, 0, 0⟩
  confidence : ObjectConfidence := {}
  shape : ObjectShape := .unknown
  visible : Bool := false
  focused : Bool := false

namespace SpatialObject

/-- Center of the bounding box (`center` property). -/
def center (self : SpatialObject) : Vector3 :=
  ⟨self.position.x + self.width / 2,
   self.position.y + self.height / 2,
   self.position.z + self.depth / 2⟩

/-- Yaw in degrees (`yaw` property). -/
def yaw (self : SpatialObject) : ℝ := self.angle * 180 / Real.pi

/-- Footprint perimeter (`perimeter` property). -/
def perimeter (self : SpatialObject) : ℝ := (self.depth + self.width) * 2

/-- Base area (`footprint` property). -/
def footprint (self : SpatialObject) : ℝ := self.depth * self.width

/-- Front area (`frontface` property). -/
def frontface (self : SpatialObject) : ℝ := self.height * self.width

/-- Side area (`sideface` property). -/
def sideface (self : SpatialObject) : ℝ := self.height * self.depth

/-- Total bounding-box surface (`surface` property). -/
def surface (self : SpatialObject) : ℝ :=
  (self.height * self.width + self.depth * self.width +
    self.height * self.depth) * 2

/-- Volume (`volume` property). -/
def volume (self : SpatialObject) : ℝ := self.depth * self.width * self.height

/-- Enclosing-sphere radius (`radius` property):
`Vector3(width/2, depth/2, height/2).length()`. -/
def radius (self : SpatialObject) : ℝ :=
  Vector3.length ⟨self.width / 2, self.depth / 2, self.height / 2⟩

/-- Base-circle radius (`baseradius` property): `hypot(width/2, depth/2)`. -/
def baseradius (self : SpatialObject) : ℝ :=
  Real.sqrt ((self.width / 2) ^ 2 + (self.depth / 2) ^ 2)

/-- Long-axis rank (`long_ratio`): 0 when no dimension is `ratio` times the
smallest, else 3/2/1 with priority depth, height, width.  The source's
default argument is the module default `longRatio` (4.0), captured at
definition time. -/
def long_ratio_rank (self : SpatialObject) (ratio : ℝ) : ℕ :=
  let maxVal := max self.width (max self.height self.depth)
  let minVal := min self.width (min self.height self.depth)
  if ¬(maxVal > 0 ∧ maxVal ≥ minVal * ratio) then 0
  else if self.depth = maxVal then 3
  else if self.height = maxVal then 2
  else 1

/-- Main direction (`mainDirection`), i.e. `long_ratio()` at the captured
default ratio 4.0. -/
def mainDirection (self : SpatialObject) : ℕ := self.long_ratio_rank 4

/-- Thin-axis rank (`thin_ratio`), default ratio 10.0 captured at
definition time. -/
def thin_ratio_rank (self : SpatialObject) (ratio : ℝ) : ℕ :=
  let maxVal := max self.width (max self.height self.depth)
  let minVal := min self.width (min self.height self.depth)
  if maxVal ≥ minVal * ratio then
    if self.height = minVal ∧ self.width > ratio * minVal ∧ self.depth > ratio * minVal then 2
    else if self.width = minVal ∧ self.height > ratio * minVal ∧ self.depth > ratio * minVal then 1
    else if self.depth = minVal ∧ self.width > ratio * minVal ∧ self.height > ratio * minVal then 3
    else 0
  else 0

/-- Dominant extent (`length` property): `long_ratio(1.1)` selects width
(1), height (2) or depth (anything else). -/
def length (self : SpatialObject) : ℝ :=
  let alignment := self.long_ratio_rank 1.1
  if alignment = 1 then self.width
  else if alignment = 2 then self.height
  else self.depth

/-- Motion state (`motion` property); the adjustment is the object's
effective `self.adjustment`. -/
def motion (adj : SpatialAdjustment) (self : SpatialObject) : MotionState :=
  if self.immobile then .stationary
  else if self.confidence.spatial > 0.5 then
    if self.velocity.length > adj.maxGap then .moving else .idle
  else .unknown

/-- Moving flag (`moving` property). -/
def moving (adj : SpatialAdjustment) (self : SpatialObject) : Bool :=
  self.motion adj = .moving

/-- Per-object nearby radius (`nearbyRadius`). -/
def nearbyRadius (self : SpatialObject) (adj : SpatialAdjustment) : ℝ :=
  match adj.nearbySchema with
  | .fixed => adj.nearbyFactor
  | .circle => min (self.baseradius * adj.nearbyFactor) adj.nearbyLimit
  | .sphere => min (self.radius * adj.nearbyFactor) adj.nearbyLimit
  | .perimeter => min ((self.height + self.width) * adj.nearbyFactor) adj.nearbyLimit
  | .area => min (self.height * self.width * adj.nearbyFactor) adj.nearbyLimit

/-- World transform into the object's local frame (`intoLocal`): translate
by `-position`, then rotate by `+angle` (rotation matrix written out with
`rotsin = sin(angle)`, `rotcos = cos(angle)`). -/
def intoLocal (self : SpatialObject) (pt : Vector3) : Vector3 :=
  let vx := pt.x - self.position.x
  let vz := pt.z - self.position.z
  let rotsin := Real.sin self.angle
  let rotcos := Real.cos self.angle
  ⟨vx * rotcos - vz * rotsin, pt.y - self.position.y, vx * rotsin + vz * rotcos⟩

/-- Batch version (`intoLocal_pts`); the source repeats the same formula
over a list. -/
def intoLocal_pts (self : SpatialObject) (pts : List Vector3) : List Vector3 :=
  pts.map self.intoLocal

/-- Eight bounding-box corners (`points`).  The base quad is built with
`Vector2` coordinates (x = width/2 components, y = depth/2 components);
world-frame corners rotate each quad corner by `-angle` and translate by
`position`, local-frame corners use the raw quad with a zero offset. -/
def points (self : SpatialObject) (lcl : Bool) : List Vector3 :=
  let p0 : Vector2 := ⟨self.width / 2, self.depth / 2⟩
  let p1 : Vector2 := ⟨-self.width / 2, self.depth / 2⟩
  let p2 : Vector2 := ⟨-self.width / 2, -self.depth / 2⟩
  let p3 : Vector2 := ⟨self.width / 2, -self.depth / 2⟩
  let q0 := if lcl then p0 else p0.rotate (-self.angle)
  let q1 := if lcl then p1 else p1.rotate (-self.angle)
  let q2 := if lcl then p2 else p2.rotate (-self.angle)
  let q3 := if lcl then p3 else p3.rotate (-self.angle)
  let vector : Vector3 := if lcl then ⟨0, 0, 0⟩ else self.position
  [⟨q0.x + vector.x, vector.y, q0.y + vector.z⟩,
   ⟨q1.x + vector.x, vector.y, q1.y + vector.z⟩,
   ⟨q2.x + vector.x, vector.y, q2.y + vector.z⟩,
   ⟨q3.x + vector.x, vector.y, q3.y + vector.z⟩,
   ⟨q0.x + vector.x, vector.y + self.height, q0.y + vector.z⟩,
   ⟨q1.x + vector.x, vector.y + self.height, q1.y + vector.z⟩,
   ⟨q2.x + vector.x, vector.y + self.height, q2.y + vector.z⟩,
   ⟨q3.x + vector.x, vector.y + self.height, q3.y + vector.z⟩]

/-- Effective tolerance of `sectorOf` (`delta` in the source): the epsilon
override when it exceeds the sentinel `-99`, else `adjustment.maxGap`. -/
def sectorDelta (adj : SpatialAdjustment) (epsilon : ℝ) : ℝ :=
  if epsilon > -99 then epsilon else adj.maxGap

/-- Left/right insert block of `sectorOf`: `left` when `x+delta > width/2`,
else `right` when `-x+delta > width/2`. -/
def sectorLR (self : SpatialObject) (point : Vector3) (delta : ℝ) : BBoxSector :=
  if point.x + delta > self.width / 2 then { l := true }
  else if -point.x + delta > self.width / 2 then { r := true }
  else {}

/-- Ahead/behind insert block of `sectorOf`: `ahead` when
`z+delta > depth/2`, else `behind` when `-z+delta > depth/2`. -/
def sectorAB (self : SpatialObject) (point : Vector3) (delta : ℝ)
    (zone : BBoxSector) : BBoxSector :=
  if point.z + delta > self.depth / 2 then { zone with a := true }
  else if -point.z + delta > self.depth / 2 then { zone with b := true }
  else zone

/-- Over/under insert block of `sectorOf`: `over` when `y+delta > height`,
else `under` when `y-delta < 0`. -/
def sectorOU (self : SpatialObject) (point : Vector3) (delta : ℝ)
    (zone : BBoxSector) : BBoxSector :=
  if point.y + delta > self.height then { zone with o := true }
  else if point.y - delta < 0 then { zone with u := true }
  else zone

/-- Inside test of `sectorOf`, written exactly as the source's six-fold
conjunction. -/
def sectorInsideCond (self : SpatialObject) (point : Vector3) (delta : ℝ) : Prop :=
  point.x ≤ self.width / 2 + delta ∧ -point.x ≤ self.width / 2 + delta ∧
    point.z ≤ self.depth / 2 + delta ∧ -point.z ≤ self.depth / 2 + delta ∧
    point.y ≤ self.height + delta ∧ point.y ≥ -delta

/-- Sector classification (`sectorOf`): an optional nearby gate, then the
inside test, then per-axis flag insertion (left before right, ahead before
behind, over before under). -/
def sectorOf (self : SpatialObject) (adj : SpatialAdjustment) (point : Vector3)
    (nearBy : Bool) (epsilon : ℝ) : BBoxSector :=
  if nearBy ∧
      (Vector3.length ⟨point.x, point.y - self.height / 2, point.z⟩ >
        self.nearbyRadius adj) then
    BBoxSector.empty
  else if sectorInsideCond self point (sectorDelta adj epsilon) then
    BBoxSector.inside
  else
    sectorOU self point (sectorDelta adj epsilon)
      (sectorAB self point (sectorDelta adj epsilon)
        (sectorLR self point (sectorDelta adj epsilon)))

end SpatialObject

/-! ## Predicates and relations (`src/SpatialPredicate.py`,
`src/SpatialRelation.py`) -/

/-- Relation kinds used by the deduction cascade (`SpatialPredicate`);
the Python keywords `in`, `by` and `at` carry a trailing underscore
(the source itself spells the first one `in_`). -/
inductive SpatialPredicate where
  | samecenter | near | far | disjoint
  | left | right | ahead | behind | above | below
  | leftside | rightside | frontside | backside
  | ontop | beneath | upperside | lowerside | beside | touching
  | on | in_ | by_ | at_
  | inside | containing | overlapping | crossing | meeting
  | aligned | frontaligned | backaligned | leftaligned | rightaligned
  | opposite | orthogonal
  | longer | shorter | taller | wider | thinner
  | bigger | exceeding | smaller | fitting
deriving DecidableEq

/-- Immutable fact triple (`SpatialRelation`).  The subject and object
references are the fixed operand pair of each deduction call and are not
repeated here; `delta` and `angle` are the signed magnitude and the yaw
difference `subject.angle - self.angle`. -/
structure SpatialRelation where
  predicate : SpatialPredicate
  delta : ℝ
  angle : ℝ

namespace SpatialObject

/-- Length block of `comparisons`: `longer`/`shorter` by `length` with the
cubic epsilon `maxGap ** 3`. -/
def comparisonLength (adj : SpatialAdjustment) (self subject : SpatialObject)
    (theta : ℝ) : List SpatialRelation :=
  if subject.length - self.length > adj.maxGap ^ 3 then
    [⟨.longer, subject.length - self.length, theta⟩]
  else if -(subject.length - self.length) > adj.maxGap ^ 3 then
    [⟨.shorter, subject.length - self.length, theta⟩]
  else []

/-- Flag `shorterAdded` of `comparisons`: the length block took its
`shorter` branch. -/
def shorterAddedCond (adj : SpatialAdjustment) (self subject : SpatialObject) : Prop :=
  ¬(subject.length - self.length > adj.maxGap ^ 3) ∧
    -(subject.length - self.length) > adj.maxGap ^ 3

/-- Height block of `comparisons`: `taller`/`shorter` by height with the
linear epsilon; `shorter` is suppressed when the length block already
added it. -/
def comparisonHeight (adj : SpatialAdjustment) (self subject : SpatialObject)
    (theta : ℝ) : List SpatialRelation :=
  if subject.height - self.height > adj.maxGap then
    [⟨.taller, subject.height - self.height, theta⟩]
  else if -(subject.height - self.height) > adj.maxGap ∧
      ¬ shorterAddedCond adj self subject then
    [⟨.shorter, subject.height - self.height, theta⟩]
  else []

/-- Footprint block of `comparisons`: `wider`/`thinner`, only when the
subject's main direction is 2, with the squared epsilon. -/
def comparisonFootprint (adj : SpatialAdjustment) (self subject : SpatialObject)
    (theta : ℝ) : List SpatialRelation :=
  if subject.mainDirection = 2 then
    if subject.footprint - self.footprint > adj.maxGap ^ 2 then
      [⟨.wider, subject.footprint - self.footprint, theta⟩]
    else if -(subject.footprint - self.footprint) > adj.maxGap ^ 2 then
      [⟨.thinner, subject.footprint - self.footprint, theta⟩]
    else []
  else []

/-- Volume block of `comparisons` exactly as written in the source: the
`bigger`+`exceeding` branch tests `self.width*self.depth*self.height -
subject.volume` (i.e. the object's own volume minus the subject's) against
the cubic epsilon, and the `smaller` branch tests `-(subject.volume -
self.volume)`; the relations carry `delta = subject.volume - self.volume`. -/
def comparisonVolume (adj : SpatialAdjustment) (self subject : SpatialObject)
    (theta : ℝ) : List SpatialRelation :=
  if self.width * self.depth * self.height - subject.volume > adj.maxGap ^ 3 then
    [⟨.bigger, subject.volume - self.volume, theta⟩,
     ⟨.exceeding, subject.volume - self.volume, theta⟩]
  else if -(subject.volume - self.volume) > adj.maxGap ^ 3 then
    [⟨.smaller, subject.volume - self.volume, theta⟩]
  else []

/-- Fitting block of `comparisons`; `delta` is the volume difference left
in the loop variable `diff`. -/
def comparisonFitting (adj : SpatialAdjustment) (self subject : SpatialObject)
    (theta : ℝ) : List SpatialRelation :=
  if self.height > subject.height ∧ self.footprint > subject.footprint then
    [⟨.fitting, subject.volume - self.volume, theta⟩]
  else []

/-- Comparison cascade (`comparisons`): length, height, footprint, volume
and fitting blocks appended in order. -/
def comparisons (adj : SpatialAdjustment) (self subject : SpatialObject) :
    List SpatialRelation :=
  comparisonLength adj self subject (subject.angle - self.angle) ++
  comparisonHeight adj self subject (subject.angle - self.angle) ++
  comparisonFootprint adj self subject (subject.angle - self.angle) ++
  comparisonVolume adj self subject (subject.angle - self.angle) ++
  comparisonFitting adj self subject (subject.angle - self.angle)

end SpatialObject


/-! ## Floating-point style modulo helpers -/

/-- Truncation toward zero, as used by C `fmod`. -/
def truncTowardZero (t : ℝ) : ℤ := if 0 ≤ t then ⌊t⌋ else ⌈t⌉

/-- C-style remainder (`math.fmod`): same sign as the dividend. -/
def fmodR (x y : ℝ) : ℝ := x - y * (truncTowardZero (x / y) : ℝ)

/-- Python `%` on floats: floored modulo, same sign as the divisor. -/
def pymod (x y : ℝ) : ℝ := x - y * (⌊x / y⌋ : ℝ)

/-- Minimum of a list of reals (`min(...)` over a nonempty sequence);
defaults to 0 on the empty list, which no caller reaches. -/
def listMin : List ℝ → ℝ
  | [] => 0
  | x :: xs => xs.foldl min x

/-- Maximum of a list of reals (`max(...)` over a nonempty sequence). -/
def listMax : List ℝ → ℝ
  | [] => 0
  | x :: xs => xs.foldl max x

/-- Running minimum against an infinite start value
(`side_gap = float('inf'); side_gap = min(side_gap, f(pt))`). -/
def sideMin (f : Vector3 → ℝ) (pts : List Vector3) : WithTop ℝ :=
  (pts.map (fun pt => ((f pt : ℝ) : WithTop ℝ))).foldl min ⊤

namespace SpatialObject

/-- Center distance `(subject.center - self.center).length()` shared by the
cascade steps. -/
def centerDistance (self subject : SpatialObject) : ℝ :=
  (subject.center.sub self.center).length

/-- Step 1 of `topologies` (`_haveSameCenter`): `samecenter` exactly when
the center distance is below `1e-6`, with the distance as delta. -/
def haveSameCenter (self subject : SpatialObject) (center_distance : ℝ) :
    List SpatialRelation :=
  if center_distance < 1e-6 then
    [⟨.samecenter, center_distance, subject.angle - self.angle⟩]
  else []

/-- Step 2 of `topologies` (`_areNearOrFar`): exactly one of `near`/`far`,
split on the sum of the two nearby radii. -/
def areNearOrFar (adj : SpatialAdjustment) (self subject : SpatialObject)
    (center_distance : ℝ) : List SpatialRelation :=
  if center_distance < subject.nearbyRadius adj + self.nearbyRadius adj then
    [⟨.near, center_distance, subject.angle - self.angle⟩]
  else
    [⟨.far, center_distance, subject.angle - self.angle⟩]

/-- Step 3 of `topologies` (`_areDisjoint`): `disjoint` whenever the boxes
cannot overlap. -/
def areDisjoint (self subject : SpatialObject) (center_distance : ℝ)
    (can_not_overlap : Prop) : List SpatialRelation :=
  if can_not_overlap then
    [⟨.disjoint, center_distance, subject.angle - self.angle⟩]
  else []

/-- Step 4 of `topologies` (`_basicAdjacency`): per-axis relations for the
flags of the center zone, with signed face-to-face gaps as deltas. -/
def basicAdjacency (self subject : SpatialObject) (center_zone : BBoxSector) :
    List SpatialRelation :=
  (if center_zone.l then
    [⟨.left, (self.intoLocal subject.center).x - self.width / 2 - subject.width / 2,
      subject.angle - self.angle⟩]
  else if center_zone.r then
    [⟨.right, -(self.intoLocal subject.center).x - self.width / 2 - subject.width / 2,
      subject.angle - self.angle⟩]
  else []) ++
  (if center_zone.a then
    [⟨.ahead, (self.intoLocal subject.center).z - self.depth / 2 - subject.depth / 2,
      subject.angle - self.angle⟩]
  else if center_zone.b then
    [⟨.behind, -(self.intoLocal subject.center).z - self.depth / 2 - subject.depth / 2,
      subject.angle - self.angle⟩]
  else []) ++
  (if center_zone.o then
    [⟨.above, (self.intoLocal subject.center).y - subject.height / 2 - self.height,
      subject.angle - self.angle⟩]
  else if center_zone.u then
    [⟨.below, -(self.intoLocal subject.center).y - subject.height / 2,
      subject.angle - self.angle⟩]
  else [])

/-- Near zone used by the side-adjacency step:
`sectorOf(local center, nearBy=True, epsilon=-maxGap)`. -/
def nearZone (adj : SpatialAdjustment) (self subject : SpatialObject) : BBoxSector :=
  self.sectorOf adj (self.intoLocal subject.center) true (-adj.maxGap)

/-- Subject corners in the object's local frame
(`intoLocal_pts(subject.points())`). -/
def localSubjectPts (self subject : SpatialObject) : List Vector3 :=
  self.intoLocal_pts (subject.points false)

/-- Left/right part of `_catch_side_related_adjacency`: the emitted
relations, the `is_beside` contribution, and the final `side_gap`. -/
def catchSideLR (self : SpatialObject) (nz : BBoxSector) (pts : List Vector3)
    (theta : ℝ) : List SpatialRelation × Bool × WithTop ℝ :=
  if nz.l then
    if 0 ≤ sideMin (fun pt => pt.x - self.width / 2) pts then
      ([⟨.leftside, (sideMin (fun pt => pt.x - self.width / 2) pts).untop' 0, theta⟩],
       true, sideMin (fun pt => pt.x - self.width / 2) pts)
    else ([], false, sideMin (fun pt => pt.x - self.width / 2) pts)
  else if nz.r then
    if 0 ≤ sideMin (fun pt => -pt.x - self.width / 2) pts then
      ([⟨.rightside, (sideMin (fun pt => -pt.x - self.width / 2) pts).untop' 0, theta⟩],
       true, sideMin (fun pt => -pt.x - self.width / 2) pts)
    else ([], false, sideMin (fun pt => -pt.x - self.width / 2) pts)
  else ([], false, ⊤)

/-- Over/under part of `_catch_side_related_adjacency`: `ontop` (plus `on`
when connectivity is deduced) and `upperside`, or `beneath` and
`lowerside`. -/
def catchSideOU (adj : SpatialAdjustment) (conn : Bool) (self : SpatialObject)
    (nz : BBoxSector) (pts : List Vector3) (theta : ℝ) : List SpatialRelation :=
  if nz.o then
    if 0 ≤ sideMin (fun pt => pt.y - self.height) pts then
      (if sideMin (fun pt => pt.y - self.height) pts ≤ (adj.maxGap : WithTop ℝ) then
        [⟨.ontop, (sideMin (fun pt => pt.y - self.height) pts).untop' 0, theta⟩] ++
          (if conn then
            [⟨.on, (sideMin (fun pt => pt.y - self.height) pts).untop' 0, theta⟩]
          else [])
      else []) ++
      [⟨.upperside, (sideMin (fun pt => pt.y - self.height) pts).untop' 0, theta⟩]
    else []
  else if nz.u then
    if 0 ≤ sideMin (fun pt => -pt.y) pts then
      (if sideMin (fun pt => -pt.y) pts ≤ (adj.maxGap : WithTop ℝ) then
        [⟨.beneath, (sideMin (fun pt => -pt.y) pts).untop' 0, theta⟩]
      else []) ++
      [⟨.lowerside, (sideMin (fun pt => -pt.y) pts).untop' 0, theta⟩]
    else []
  else []

/-- Front/back part of `_catch_side_related_adjacency`: `frontside` or
`backside`, with the `is_beside` contribution. -/
def catchSideAB (self : SpatialObject) (nz : BBoxSector) (pts : List Vector3)
    (theta : ℝ) : List SpatialRelation × Bool :=
  if nz.a then
    if 0 ≤ sideMin (fun pt => pt.z - self.depth / 2) pts then
      ([⟨.frontside, (sideMin (fun pt => pt.z - self.depth / 2) pts).untop' 0, theta⟩],
       true)
    else ([], false)
  else if nz.b then
    if 0 ≤ sideMin (fun pt => -pt.z - self.depth / 2) pts then
      ([⟨.backside, (sideMin (fun pt => -pt.z - self.depth / 2) pts).untop' 0, theta⟩],
       true)
    else ([], false)
  else ([], false)

/-- Beside/touching tail of `_catch_side_related_adjacency`: the `beside`
delta falls back to 0 when `side_gap` is still infinite, and `touching` is
added when `side_gap ≤ 0.05`. -/
def catchSideBeside (is_beside : Bool) (side_gap : WithTop ℝ) (theta : ℝ) :
    List SpatialRelation :=
  if is_beside then
    [⟨.beside, side_gap.untop' 0, theta⟩] ++
      (if side_gap ≤ ((0.05 : ℝ) : WithTop ℝ) then
        [⟨.touching, side_gap.untop' 0, theta⟩]
      else [])
  else []

/-- Step 5 of `topologies` (`_catch_side_related_adjacency`): the aligned
flag and the emitted relations.  The source's guard
`near_zone != SpatialPredicate.i` compares a `BBoxSector` with a predicate
and is always true (`BBoxSector.__eq__` yields `False` for non-sector
operands), so the block runs unconditionally. -/
def catchSide (adj : SpatialAdjustment) (conn : Bool) (self subject : SpatialObject) :
    Prop × List SpatialRelation :=
  (|fmodR (subject.angle - self.angle) (Real.pi / 2)| < adj.maxAngleDelta,
   (catchSideLR self (nearZone adj self subject) (localSubjectPts self subject)
      (subject.angle - self.angle)).1 ++
   catchSideOU adj conn self (nearZone adj self subject) (localSubjectPts self subject)
      (subject.angle - self.angle) ++
   (catchSideAB self (nearZone adj self subject) (localSubjectPts self subject)
      (subject.angle - self.angle)).1 ++
   catchSideBeside
     ((catchSideLR self (nearZone adj self subject) (localSubjectPts self subject)
        (subject.angle - self.angle)).2.1 ||
      (catchSideAB self (nearZone adj self subject) (localSubjectPts self subject)
        (subject.angle - self.angle)).2)
     (catchSideLR self (nearZone adj self subject) (localSubjectPts self subject)
        (subject.angle - self.angle)).2.2
     (subject.angle - self.angle))

/-- Zones of the subject's corners used by the assembly step:
`sectorOf(pt, nearBy=False, epsilon=0.00001)`. -/
def assemblyZones (adj : SpatialAdjustment) (self subject : SpatialObject) :
    List BBoxSector :=
  (localSubjectPts self subject).map (fun pt => self.sectorOf adj pt false 0.00001)

/-- All-corners-inside test of the assembly step. -/
def allInsideCond (adj : SpatialAdjustment) (self subject : SpatialObject) : Prop :=
  ∀ z ∈ assemblyZones adj self subject, z.i = true

/-- Number of corners classified inside (`cnt`). -/
def insideCnt (adj : SpatialAdjustment) (self subject : SpatialObject) : ℕ :=
  ((assemblyZones adj self subject).filter (fun z => z.i)).length

/-- Containing test of the assembly step, exactly as written in the source:
the subject's radius must dominate the object's by more than half the
center distance, and the subject must strictly exceed the object on every
axis. -/
def containingCond (self subject : SpatialObject) (center_distance : ℝ) : Prop :=
  subject.radius - self.radius > center_distance / 2 ∧
  subject.width > self.width ∧ subject.height > self.height ∧
  subject.depth > self.depth

/-- First corner's local y (`min_y` after the source overwrites the true
minimum with `local_pts[0].y`). -/
def minYA (self subject : SpatialObject) : ℝ :=
  ((localSubjectPts self subject).headD ⟨0, 0, 0⟩).y

/-- Last corner's local y (`max_y` after the source overwrites the true
maximum with `local_pts[-1].y`). -/
def maxYA (self subject : SpatialObject) : ℝ :=
  ((localSubjectPts self subject).getLastD ⟨0, 0, 0⟩).y

/-- Minimum local x over the subject's corners. -/
def minXA (self subject : SpatialObject) : ℝ :=
  listMin ((localSubjectPts self subject).map (fun pt => pt.x))

/-- Maximum local x over the subject's corners. -/
def maxXA (self subject : SpatialObject) : ℝ :=
  listMax ((localSubjectPts self subject).map (fun pt => pt.x))

/-- Minimum local z over the subject's corners. -/
def minZA (self subject : SpatialObject) : ℝ :=
  listMin ((localSubjectPts self subject).map (fun pt => pt.z))

/-- Maximum local z over the subject's corners. -/
def maxZA (self subject : SpatialObject) : ℝ :=
  listMax ((localSubjectPts self subject).map (fun pt => pt.z))

/-- Number of crossing tests that fire (`crossings`). -/
def crossCount (self subject : SpatialObject) : ℕ :=
  (if minXA self subject < -self.width / 2 ∧ maxXA self subject > self.width / 2 ∧
      minZA self subject < self.depth / 2 ∧ maxZA self subject > -self.depth / 2 ∧
      minYA self subject < self.height ∧ maxYA self subject > 0 then 1 else 0) +
  (if minZA self subject < -self.depth / 2 ∧ maxZA self subject > self.depth / 2 ∧
      minXA self subject < self.width / 2 ∧ maxXA self subject > -self.width / 2 ∧
      minYA self subject < self.height ∧ maxYA self subject > 0 then 1 else 0) +
  (if minYA self subject < 0 ∧ maxYA self subject > self.height ∧
      minXA self subject < self.width / 2 ∧ maxXA self subject > -self.width / 2 ∧
      minZA self subject < self.depth / 2 ∧ maxZA self subject > -self.depth / 2
    then 1 else 0)

/-- Vertical overlap length (`ylap`). -/
def ylap (self subject : SpatialObject) : ℝ :=
  if maxYA self subject < self.height ∧ minYA self subject > 0 then
    maxYA self subject - minYA self subject
  else if minYA self subject > 0 then |self.height - minYA self subject|
  else |maxYA self subject|

/-- Lateral overlap length along x (`xlap`), `-1` when the x extents cannot
meet within `maxGap`. -/
def xlap (adj : SpatialAdjustment) (self subject : SpatialObject) : ℝ :=
  if minXA self subject < self.width / 2 + adj.maxGap ∧
      maxXA self subject > -self.width / 2 - adj.maxGap then
    if maxXA self subject < self.width / 2 ∧ minXA self subject > -self.width / 2 then
      maxXA self subject - minXA self subject
    else if minXA self subject > -self.width / 2 - adj.maxGap then
      |self.width / 2 - minXA self subject|
    else |maxXA self subject + self.width / 2|
  else -1

/-- Lateral overlap length along z (`zlap`); note the inner bound
`min_z > -depth/2` has no `maxGap` slack in the source, unlike `xlap`. -/
def zlap (adj : SpatialAdjustment) (self subject : SpatialObject) : ℝ :=
  if minZA self subject < self.depth / 2 + adj.maxGap ∧
      maxZA self subject > -self.depth / 2 - adj.maxGap then
    if maxZA self subject < self.depth / 2 ∧ minZA self subject > -self.depth / 2 then
      maxZA self subject - minZA self subject
    else if minZA self subject > -self.depth / 2 then
      |self.depth / 2 - minZA self subject|
    else |maxZA self subject + self.depth / 2|
  else -1

/-- Contact/meeting tail of the assembly step. -/
def contactRels (adj : SpatialAdjustment) (conn : Bool) (self subject : SpatialObject)
    (aligned : Prop) (can_not_overlap : Prop) (theta : ℝ) : List SpatialRelation :=
  if minYA self subject < self.height + adj.maxGap ∧
      maxYA self subject > -adj.maxGap then
    if ¬aligned ∧ can_not_overlap ∧
        min (xlap adj self subject) (zlap adj self subject) > 0 ∧
        min (xlap adj self subject) (zlap adj self subject) < adj.maxGap then
      if maxXA self subject < -self.width / 2 + adj.maxGap ∨
          minXA self subject > self.width / 2 - adj.maxGap ∨
          maxZA self subject < -self.depth / 2 + adj.maxGap ∨
          minZA self subject > self.depth / 2 - adj.maxGap then
        [⟨.touching, min (xlap adj self subject) (zlap adj self subject), theta⟩] ++
          (if conn then
            [⟨.by_, min (xlap adj self subject) (zlap adj self subject), theta⟩]
          else [])
      else []
    else
      if xlap adj self subject ≥ 0 ∧ zlap adj self subject ≥ 0 then
        if ylap self subject > adj.maxGap ∧
            min (xlap adj self subject) (zlap adj self subject) < adj.maxGap then
          if xlap adj self subject > adj.maxGap ∨ zlap adj self subject > adj.maxGap then
            [⟨.meeting, max (xlap adj self subject) (zlap adj self subject), theta⟩] ++
              (if conn ∧ subject.volume < self.volume then
                [⟨.at_, min (xlap adj self subject) (zlap adj self subject), theta⟩]
              else [])
          else
            [⟨.touching, min (xlap adj self subject) (zlap adj self subject), theta⟩] ++
              (if conn then
                [⟨.by_, min (xlap adj self subject) (zlap adj self subject), theta⟩]
              else [])
        else
          if xlap adj self subject > adj.maxGap ∧ zlap adj self subject > adj.maxGap then
            [⟨.meeting, ylap self subject, theta⟩]
          else
            [⟨.touching, ylap self subject, theta⟩]
      else []
  else []

/-- Step 6 of `topologies` (`_check_Assembly`): inside / containing /
overlapping / crossing / contact relations, with a trailing `disjoint`
when none of the exclusive classifications fired (contact emissions do not
clear the `is_disjoint` flag in the source). -/
def checkAssembly (adj : SpatialAdjustment) (conn : Bool)
    (self subject : SpatialObject) (aligned : Prop) : List SpatialRelation :=
  if allInsideCond adj self subject then
    [⟨.inside, centerDistance self subject, subject.angle - self.angle⟩] ++
      (if conn then
        [⟨.in_, centerDistance self subject, subject.angle - self.angle⟩]
      else [])
  else if containingCond self subject (centerDistance self subject) then
    [⟨.containing, 0, subject.angle - self.angle⟩]
  else
    (if insideCnt adj self subject > 0 ∧
        ¬(centerDistance self subject > self.radius + subject.radius) then
      [⟨.overlapping, centerDistance self subject, subject.angle - self.angle⟩]
    else []) ++
    (if ¬(centerDistance self subject > self.radius + subject.radius) ∧
        crossCount self subject > 0 then
      [⟨.crossing, centerDistance self subject, subject.angle - self.angle⟩]
    else []) ++
    contactRels adj conn self subject aligned
      (centerDistance self subject > self.radius + subject.radius)
      (subject.angle - self.angle) ++
    (if ¬(insideCnt adj self subject > 0 ∧
          ¬(centerDistance self subject > self.radius + subject.radius)) ∧
        ¬(¬(centerDistance self subject > self.radius + subject.radius) ∧
          crossCount self subject > 0) then
      [⟨.disjoint, centerDistance self subject, subject.angle - self.angle⟩]
    else [])

/-- Step 7 of `topologies` (`_deduce_orientation`): `aligned` plus the four
face alignments, else `opposite`, else `orthogonal` (the source uses
Python's floored `%` here, unlike the side step's `math.fmod`). -/
def deduceOrientation (adj : SpatialAdjustment) (self subject : SpatialObject) :
    List SpatialRelation :=
  if |subject.angle - self.angle| < adj.maxAngleDelta then
    [⟨.aligned, (self.intoLocal subject.center).z, subject.angle - self.angle⟩] ++
    (if |(self.intoLocal subject.center).z + subject.depth / 2 - self.depth / 2| <
        adj.maxGap then
      [⟨.frontaligned,
        (self.intoLocal subject.center).z + subject.depth / 2 - self.depth / 2,
        subject.angle - self.angle⟩]
    else []) ++
    (if |(self.intoLocal subject.center).z - subject.depth / 2 + self.depth / 2| <
        adj.maxGap then
      [⟨.backaligned,
        (self.intoLocal subject.center).z - subject.depth / 2 + self.depth / 2,
        subject.angle - self.angle⟩]
    else []) ++
    (if |(self.intoLocal subject.center).x - subject.width / 2 + self.width / 2| <
        adj.maxGap then
      [⟨.rightaligned,
        (self.intoLocal subject.center).x - subject.width / 2 + self.width / 2,
        subject.angle - self.angle⟩]
    else []) ++
    (if |(self.intoLocal subject.center).x + subject.width / 2 - self.width / 2| <
        adj.maxGap then
      [⟨.leftaligned,
        (self.intoLocal subject.center).x + subject.width / 2 - self.width / 2,
        subject.angle - self.angle⟩]
    else [])
  else if |pymod (subject.angle - self.angle) Real.pi| < adj.maxAngleDelta then
    [⟨.opposite, centerDistance self subject, subject.angle - self.angle⟩]
  else if |pymod (subject.angle - self.angle) (Real.pi / 2)| < adj.maxAngleDelta then
    [⟨.orthogonal, centerDistance self subject, subject.angle - self.angle⟩]
  else []

/-- Step 8 of `topologies` (`_deduce_visibility`): with no reasoning
context the source returns the result unchanged
(`if self.context is None: return result`). -/
def deduceVisibility (self subject : SpatialObject) : List SpatialRelation := []

/-- Relation cascade (`topologies`): the eight steps appended in order;
`conn` models `self.context.deduce.connectivity` (false when the context
is absent). -/
def topologies (adj : SpatialAdjustment) (conn : Bool)
    (self subject : SpatialObject) : List SpatialRelation :=
  haveSameCenter self subject (centerDistance self subject) ++
  areNearOrFar adj self subject (centerDistance self subject) ++
  areDisjoint self subject (centerDistance self subject)
    (centerDistance self subject > self.radius + subject.radius) ++
  basicAdjacency self subject
    (self.sectorOf adj (self.intoLocal subject.center) false (-adj.maxGap)) ++
  (catchSide adj conn self subject).2 ++
  checkAssembly adj conn self subject (catchSide adj conn self subject).1 ++
  deduceOrientation adj self subject ++
  deduceVisibility self subject

end SpatialObject

namespace SpatialObject

/-! ## Auxiliary data and serialization
(`setData`, `dataValue`, `asDict`, `fromAny`) -/

/-- Store an auxiliary value (`setData`): update the table in place, or
create it from the single pair. -/
def setData (self : SpatialObject) (key : String) (value : DVal) : SpatialObject :=
  match self.data with
  | some d => { self with data := some (dictSet d key value) }
  | none => { self with data := some [(key, value)] }

/-- Read an auxiliary value as a float (`dataValue`): the stored number for
an int or float — a Python bool passes the `isinstance(value, (int,))` test
and converts as `float(True) = 1.0` — and `0.0` in every other case. -/
def dataValue (self : SpatialObject) (key : String) : ℝ :=
  match self.data with
  | some d =>
    match dictGet d key with
    | some (.num v) => v
    | some (.bool b) => if b then 1 else 0
    | _ => 0
  | none => 0

/-- Class attribute `booleanAttributes`. -/
def booleanAttributes : List String :=
  ["immobile", "moving", "focused", "visible", "equilateral", "thin", "long",
   "real", "virtual", "conceptual"]

/-- Class attribute `numericAttributes`. -/
def numericAttributes : List String :=
  ["width", "height", "depth", "w", "h", "d", "position", "x", "y", "z",
   "angle", "confidence"]

/-- Class attribute `stringAttributes`. -/
def stringAttributes : List String :=
  ["id", "label", "type", "supertype", "existence", "cause", "shape", "look"]

/-- The fixed key/value schema built by `asDict` before the auxiliary data
is merged in.  Wall-clock quantities (`lifespan`, `updateInterval`) enter
as parameters; `azimuth` is 0 with no context. -/
def asDictSchema (adj : SpatialAdjustment) (self : SpatialObject)
    (lifespanV updateIntervalV : ℝ) : Dict :=
  [("id", .str self.id),
   ("existence", .str self.existence.value),
   ("cause", .str self.cause.value),
   ("label", .str self.label),
   ("type", .str self.type),
   ("supertype", .str self.supertype),
   ("position", .vec [self.position.x, self.position.y, self.position.z]),
   ("center", .vec [self.center.x, self.center.y, self.center.z]),
   ("width", .num self.width),
   ("height", .num self.height),
   ("depth", .num self.depth),
   ("length", .num self.length),
   ("direction", .num self.mainDirection),
   ("thin", .bool (decide (0 < self.thin_ratio_rank 10))),
   ("long", .bool (decide (0 < self.long_ratio_rank 4))),
   ("equilateral", .bool (decide (self.long_ratio_rank 4 = 0))),
   ("real", .bool (decide (self.existence = .real))),
   ("virtual", .bool (decide (self.existence = .virtual))),
   ("conceptual", .bool (decide (self.existence = .conceptual))),
   ("moving", .bool (self.moving adj)),
   ("perimeter", .num self.perimeter),
   ("footprint", .num self.footprint),
   ("frontface", .num self.frontface),
   ("sideface", .num self.sideface),
   ("surface", .num self.surface),
   ("baseradius", .num self.baseradius),
   ("volume", .num self.volume),
   ("radius", .num self.radius),
   ("angle", .num self.angle),
   ("yaw", .num self.yaw),
   ("azimuth", .num 0),
   ("lifespan", .num lifespanV),
   ("updateInterval", .num updateIntervalV),
   ("confidence", .conf self.confidence.pose self.confidence.dimension
      self.confidence.label self.confidence.look),
   ("immobile", .bool self.immobile),
   ("velocity", .vec [self.velocity.x, self.velocity.y, self.velocity.z]),
   ("motion", .str (self.motion adj).value),
   ("shape", .str self.shape.value),
   ("look", .str self.look),
   ("visible", .bool self.visible),
   ("focused", .bool self.focused)]

/-- Fact-base export (`asDict`): the fixed schema, then
`output.update(self.data)` when auxiliary data exists. -/
def asDict (adj : SpatialAdjustment) (self : SpatialObject)
    (lifespanV updateIntervalV : ℝ) : Dict :=
  match self.data with
  | some d => dictUpdate (asDictSchema adj self lifespanV updateIntervalV) d
  | none => asDictSchema adj self lifespanV updateIntervalV

/-- Position setter (`setPosition`): derive the velocity from the position
delta when the elapsed interval exceeds 3ms and the object is mobile. -/
def setPosition (self : SpatialObject) (pos : Vector3) (interval : ℝ) :
    SpatialObject :=
  if interval > 0.003 ∧ self.immobile = false then
    { self with
        position := pos
        velocity := (pos.sub self.position).scaleDiv interval }
  else { self with position := pos }

/-- Conversion of a stored value by Python `float(...)`: numbers pass
through, bools convert to 1/0; strings and containers raise (numeric
strings, which Python would parse, are not exercised by the export
schema and are not modelled). -/
def toFloat : DVal → Option ℝ
  | .num v => some v
  | .bool b => some (if b then 1 else 0)
  | _ => none

/-- `float(input.get(k, dflt))`. -/
def getNumOr (d : Dict) (k : String) (dflt : ℝ) : Option ℝ :=
  match dictGet d k with
  | none => some dflt
  | some v => toFloat v

/-- `float(input.get(k1, input.get(k2, dflt)))`. -/
def getNum2Or (d : Dict) (k1 k2 : String) (dflt : ℝ) : Option ℝ :=
  match dictGet d k1 with
  | some v => toFloat v
  | none =>
    match dictGet d k2 with
    | some v => toFloat v
    | none => some dflt

/-- `input.get(k, dflt)` for a string slot; a present non-string value
would be stored as-is by Python (type confusion) and is not modelled. -/
def getStrOr (d : Dict) (k : String) (dflt : String) : Option String :=
  match dictGet d k with
  | none => some dflt
  | some (.str s) => some s
  | some _ => none

/-- Python truthiness of `bool(input.get(k, dflt))`. -/
def getTruthyOr (d : Dict) (k : String) (dflt : Bool) : Bool :=
  match dictGet d k with
  | none => dflt
  | some (.bool b) => b
  | some (.num v) => if v = 0 then false else true
  | some (.str s) => if s = "" then false else true
  | some (.vec l) => if l.isEmpty then false else true
  | some (.conf _ _ _ _) => true

/-- One iteration of the auxiliary-data import loop of `fromAny`. -/
def auxStep (acc : SpatialObject) (p : String × DVal) : SpatialObject :=
  if p.1 ∈ stringAttributes ∨ p.1 ∈ numericAttributes ∨ p.1 ∈ booleanAttributes
  then acc
  else acc.setData p.1 p.2

/-- Import/update from dict data (`fromAny`), mirroring the source's
mutation order: id, position (via `setPosition` with the elapsed-interval
parameter), dimensions, angle, labels, confidence, cause, existence,
immobile, shape, look, visible, focused, then the auxiliary-data loop.
A missing `cause`/`existence`/`shape` key resets the field through
`named(self.<field>)`, whose membership test fails on an enum value and
falls back to the unknown/undefined member.  `none` marks the conversions
where Python `float()` would raise. -/
def fromAny (self : SpatialObject) (input : Dict) (updInterval : ℝ) :
    Option SpatialObject := do
  let o1 : SpatialObject :=
    match dictGet input "id" with
    | some (.str s) => if s = "" then self else { self with id := s }
    | _ => self
  let pos : Vector3 ←
    match dictGet input "position" with
    | some (.vec [px, py, pz]) => some ⟨px, py, pz⟩
    | _ => do
      let x ← getNumOr input "x" o1.position.x
      let y ← getNumOr input "y" o1.position.y
      let z ← getNumOr input "z" o1.position.z
      some ⟨x, y, z⟩
  let o2 := o1.setPosition pos updInterval
  let w ← getNum2Or input "width" "w" o2.width
  let h ← getNum2Or input "height" "h" o2.height
  let dp ← getNum2Or input "depth" "d" o2.depth
  let ang ← getNumOr input "angle" o2.angle
  let lab ← getStrOr input "label" o2.label
  let ty ← getStrOr input "type" o2.type
  let sty ← getStrOr input "supertype" o2.supertype
  let o3 := { o2 with
    width := w
    height := h
    depth := dp
    angle := ang
    label := lab
    type := ty
    supertype := sty }
  let conf : ObjectConfidence ←
    match dictGet input "confidence" with
    | some (.conf p dm lb lk) =>
      some { pose := p, dimension := dm, label := lb, look := lk }
    | some (.num v) => some (o3.confidence.setValue v)
    | some (.bool b) => some (o3.confidence.setValue (if b then 1 else 0))
    | some (.str _) => some (o3.confidence.setValue o3.confidence.value)
    | some (.vec _) => some (o3.confidence.setValue o3.confidence.value)
    | none => some (o3.confidence.setValue o3.confidence.value)
  let cz : ObjectCause :=
    match dictGet input "cause" with
    | some (.str s) => ObjectCause.named s
    | _ => .unknown
  let ex : SpatialExistence :=
    match dictGet input "existence" with
    | some (.str s) => SpatialExistence.named s
    | _ => .undefined
  let sh : ObjectShape :=
    match dictGet input "shape" with
    | some (.str s) => ObjectShape.named s
    | _ => .unknown
  let lk ← getStrOr input "look" o3.look
  let o4 := { o3 with
    confidence := conf
    cause := cz
    existence := ex
    immobile := getTruthyOr input "immobile" o3.immobile
    shape := sh
    look := lk
    visible := getTruthyOr input "visible" o3.visible
    focused := getTruthyOr input "focused" o3.focused }
  some (input.foldl auxStep o4)

end SpatialObject

end SRpy

namespace SRpy

/-! ## Concrete objects used by witnesses and counterexamples -/

/-- Axis-aligned box of the given extents at the origin with default
attributes, as built by `SpatialObject(id=...)`. -/
def mkBox (w h d : ℝ) : SpatialObject :=
  { id := "box", width := w, height := h, depth := d }

/-- Adjustment with the fixed nearby schema and factor 1, as built by
`SpatialAdjustment(nearby_schema=NearbySchema.fixed, nearby_factor=1.0)`. -/
def fixedNearbyAdjustment : SpatialAdjustment :=
  { nearbySchema := .fixed, nearbyFactor := 1.0 }

/-! ## Sector-classification claims -/

/-- Case split for the left/right insert block. -/
lemma sectorLR_cases (self : SpatialObject) (point : Vector3) (delta : ℝ) :
    self.sectorLR point delta = {} ∨
    self.sectorLR point delta = { l := true } ∨
    self.sectorLR point delta = { r := true } := by
  unfold SpatialObject.sectorLR
  split_ifs <;> simp

/-- Case split for the ahead/behind insert block. -/
lemma sectorAB_cases (self : SpatialObject) (point : Vector3) (delta : ℝ)
    (zone : BBoxSector) :
    self.sectorAB point delta zone = zone ∨
    self.sectorAB point delta zone = { zone with a := true } ∨
    self.sectorAB point delta zone = { zone with b := true } := by
  unfold SpatialObject.sectorAB
  split_ifs <;> simp

/-- Case split for the over/under insert block. -/
lemma sectorOU_cases (self : SpatialObject) (point : Vector3) (delta : ℝ)
    (zone : BBoxSector) :
    self.sectorOU point delta zone = zone ∨
    self.sectorOU point delta zone = { zone with o := true } ∨
    self.sectorOU point delta zone = { zone with u := true } := by
  unfold SpatialObject.sectorOU
  split_ifs <;> simp

/-- Unfolding of `sectorOf` when the nearby gate is passed (or absent). -/
lemma sectorOf_of_not_gate (self : SpatialObject) (adj : SpatialAdjustment)
    (point : Vector3) (nearBy : Bool) (epsilon : ℝ)
    (hg : ¬(nearBy = true ∧
      Vector3.length ⟨point.x, point.y - self.height / 2, point.z⟩ >
        self.nearbyRadius adj)) :
    self.sectorOf adj point nearBy epsilon =
      if self.sectorInsideCond point (SpatialObject.sectorDelta adj epsilon) then
        BBoxSector.inside
      else
        self.sectorOU point (SpatialObject.sectorDelta adj epsilon)
          (self.sectorAB point (SpatialObject.sectorDelta adj epsilon)
            (self.sectorLR point (SpatialObject.sectorDelta adj epsilon))) := by
  rw [SpatialObject.sectorOf, if_neg hg]

/-- Structural case split of `sectorOf`: the result is the empty sector,
the inside sector, or a record with the inside bit clear in which no
opposing directional pair is set. -/
lemma sectorOf_shape (self : SpatialObject) (adj : SpatialAdjustment)
    (point : Vector3) (nearBy : Bool) (epsilon : ℝ) :
    self.sectorOf adj point nearBy epsilon = BBoxSector.empty ∨
    self.sectorOf adj point nearBy epsilon = BBoxSector.inside ∨
    ∃ ab bb la ra ob ub : Bool,
      self.sectorOf adj point nearBy epsilon = ⟨false, ab, bb, la, ra, ob, ub⟩ ∧
      ¬(la = true ∧ ra = true) ∧ ¬(ab = true ∧ bb = true) ∧
      ¬(ob = true ∧ ub = true) := by
  by_cases hg : nearBy = true ∧
      Vector3.length ⟨point.x, point.y - self.height / 2, point.z⟩ >
        self.nearbyRadius adj
  · exact Or.inl (by rw [SpatialObject.sectorOf, if_pos hg])
  by_cases hi : self.sectorInsideCond point (SpatialObject.sectorDelta adj epsilon)
  · exact Or.inr (Or.inl (by rw [sectorOf_of_not_gate self adj point nearBy epsilon hg, if_pos hi]))
  have hout := sectorOf_of_not_gate self adj point nearBy epsilon hg
  rw [if_neg hi] at hout
  refine Or.inr (Or.inr ?_)
  rcases sectorLR_cases self point (SpatialObject.sectorDelta adj epsilon) with h1 | h1 | h1 <;>
    rcases sectorAB_cases self point (SpatialObject.sectorDelta adj epsilon)
        (self.sectorLR point (SpatialObject.sectorDelta adj epsilon)) with h2 | h2 | h2 <;>
    rcases sectorOU_cases self point (SpatialObject.sectorDelta adj epsilon)
        (self.sectorAB point (SpatialObject.sectorDelta adj epsilon)
          (self.sectorLR point (SpatialObject.sectorDelta adj epsilon))) with h3 | h3 | h3 <;>
    rw [hout, h3, h2, h1] <;>
    exact ⟨_, _, _, _, _, _, rfl, by simp, by simp, by simp⟩

/-- C3: every `BBoxSector` returned by `sectorOf` — for any point, nearBy
flag and epsilon — satisfies the sector invariant: the inside bit excludes
all directional bits, no opposing directional pair (ahead/behind,
left/right, over/under) is ever set together, and at most three
directional bits are set. -/
theorem claim3_sector_invariant (self : SpatialObject) (adj : SpatialAdjustment)
    (point : Vector3) (nearBy : Bool) (epsilon : ℝ) :
    ¬((self.sectorOf adj point nearBy epsilon).i = true ∧
        0 < (self.sectorOf adj point nearBy epsilon).dirCount) ∧
    ¬((self.sectorOf adj point nearBy epsilon).a = true ∧
        (self.sectorOf adj point nearBy epsilon).b = true) ∧
    ¬((self.sectorOf adj point nearBy epsilon).l = true ∧
        (self.sectorOf adj point nearBy epsilon).r = true) ∧
    ¬((self.sectorOf adj point nearBy epsilon).o = true ∧
        (self.sectorOf adj point nearBy epsilon).u = true) ∧
    (self.sectorOf adj point nearBy epsilon).dirCount ≤ 3 := by
  rcases sectorOf_shape self adj point nearBy epsilon with h | h | ⟨ab, bb, la, ra, ob, ub, h, hlr, hab, hou⟩ <;>
    rw [h] <;>
    [skip; skip;
     cases ab <;> cases bb <;> cases la <;> cases ra <;> cases ob <;> cases ub] <;>
    simp_all [BBoxSector.empty, BBoxSector.inside, BBoxSector.dirCount]

/-- Closed instantiation of `claim3_sector_invariant` at a concrete box and
point. -/
theorem claim3_sector_invariant_witness :
    ¬(((mkBox 1 1 1).sectorOf defaultAdjustment ⟨2, 0, 0⟩ false (-100)).i = true ∧
        0 < ((mkBox 1 1 1).sectorOf defaultAdjustment ⟨2, 0, 0⟩ false (-100)).dirCount) ∧
    ¬(((mkBox 1 1 1).sectorOf defaultAdjustment ⟨2, 0, 0⟩ false (-100)).a = true ∧
        ((mkBox 1 1 1).sectorOf defaultAdjustment ⟨2, 0, 0⟩ false (-100)).b = true) ∧
    ¬(((mkBox 1 1 1).sectorOf defaultAdjustment ⟨2, 0, 0⟩ false (-100)).l = true ∧
        ((mkBox 1 1 1).sectorOf defaultAdjustment ⟨2, 0, 0⟩ false (-100)).r = true) ∧
    ¬(((mkBox 1 1 1).sectorOf defaultAdjustment ⟨2, 0, 0⟩ false (-100)).o = true ∧
        ((mkBox 1 1 1).sectorOf defaultAdjustment ⟨2, 0, 0⟩ false (-100)).u = true) ∧
    ((mkBox 1 1 1).sectorOf defaultAdjustment ⟨2, 0, 0⟩ false (-100)).dirCount ≤ 3 :=
  claim3_sector_invariant (mkBox 1 1 1) defaultAdjustment ⟨2, 0, 0⟩ false (-100)

/-- Field characterization of `sectorOf` outside the inside zone, with the
nearby gate passed. -/
lemma sectorOf_outside_fields (self : SpatialObject) (adj : SpatialAdjustment)
    (point : Vector3) (nearBy : Bool) (epsilon : ℝ)
    (hg : ¬(nearBy = true ∧
      Vector3.length ⟨point.x, point.y - self.height / 2, point.z⟩ >
        self.nearbyRadius adj))
    (hi : ¬ self.sectorInsideCond point (SpatialObject.sectorDelta adj epsilon)) :
    (self.sectorOf adj point nearBy epsilon).i = false ∧
    ((self.sectorOf adj point nearBy epsilon).l = true ↔
      point.x + SpatialObject.sectorDelta adj epsilon > self.width / 2) ∧
    ((self.sectorOf adj point nearBy epsilon).r = true ↔
      (¬(point.x + SpatialObject.sectorDelta adj epsilon > self.width / 2) ∧
        -point.x + SpatialObject.sectorDelta adj epsilon > self.width / 2)) ∧
    ((self.sectorOf adj point nearBy epsilon).a = true ↔
      point.z + SpatialObject.sectorDelta adj epsilon > self.depth / 2) ∧
    ((self.sectorOf adj point nearBy epsilon).b = true ↔
      (¬(point.z + SpatialObject.sectorDelta adj epsilon > self.depth / 2) ∧
        -point.z + SpatialObject.sectorDelta adj epsilon > self.depth / 2)) ∧
    ((self.sectorOf adj point nearBy epsilon).o = true ↔
      point.y + SpatialObject.sectorDelta adj epsilon > self.height) ∧
    ((self.sectorOf adj point nearBy epsilon).u = true ↔
      (¬(point.y + SpatialObject.sectorDelta adj epsilon > self.height) ∧
        point.y - SpatialObject.sectorDelta adj epsilon < 0)) := by
  have hout := sectorOf_of_not_gate self adj point nearBy epsilon hg
  rw [if_neg hi] at hout
  rw [hout]
  unfold SpatialObject.sectorOU SpatialObject.sectorAB SpatialObject.sectorLR
  split_ifs <;> simp_all

/-- Equality with the inside sector holds exactly on the inside test. -/
lemma sectorOf_eq_inside_iff (self : SpatialObject) (adj : SpatialAdjustment)
    (point : Vector3) (nearBy : Bool) (epsilon : ℝ)
    (hg : ¬(nearBy = true ∧
      Vector3.length ⟨point.x, point.y - self.height / 2, point.z⟩ >
        self.nearbyRadius adj)) :
    (self.sectorOf adj point nearBy epsilon = BBoxSector.inside ↔
      self.sectorInsideCond point (SpatialObject.sectorDelta adj epsilon)) := by
  have hout := sectorOf_of_not_gate self adj point nearBy epsilon hg
  by_cases hi : self.sectorInsideCond point (SpatialObject.sectorDelta adj epsilon)
  · rw [hout, if_pos hi]
    simp [hi]
  · refine iff_of_false ?_ hi
    have hf := (sectorOf_outside_fields self adj point nearBy epsilon hg hi).1
    intro he
    rw [he] at hf
    simp [BBoxSector.inside] at hf

/-- C2: with `nearBy=false`, `sectorOf` returns the exclusive inside
sector exactly when `|x| ≤ width/2+delta`, `|z| ≤ depth/2+delta` and
`-delta ≤ y ≤ height+delta` (delta being the epsilon override when it
exceeds `-99`, else `maxGap`); otherwise it sets `left` when
`x+delta > width/2`, else `right` when `-x+delta > width/2`, analogously
`ahead`/`behind` for z and `over`/`under` for y with bounds 0 and height.
In particular a 1.1-cube under the default adjustment classifies the local
point (1.2, 0.21, 1.4) as `ahead+left`. -/
theorem claim2_sectorOf_rule (self : SpatialObject) (adj : SpatialAdjustment)
    (point : Vector3) (epsilon : ℝ) :
    (self.sectorOf adj point false epsilon = BBoxSector.inside ↔
      (|point.x| ≤ self.width / 2 + SpatialObject.sectorDelta adj epsilon ∧
        |point.z| ≤ self.depth / 2 + SpatialObject.sectorDelta adj epsilon ∧
        -(SpatialObject.sectorDelta adj epsilon) ≤ point.y ∧
        point.y ≤ self.height + SpatialObject.sectorDelta adj epsilon)) ∧
    (¬ self.sectorInsideCond point (SpatialObject.sectorDelta adj epsilon) →
      (((self.sectorOf adj point false epsilon).l = true ↔
          point.x + SpatialObject.sectorDelta adj epsilon > self.width / 2) ∧
        ((self.sectorOf adj point false epsilon).r = true ↔
          (¬(point.x + SpatialObject.sectorDelta adj epsilon > self.width / 2) ∧
            -point.x + SpatialObject.sectorDelta adj epsilon > self.width / 2)) ∧
        ((self.sectorOf adj point false epsilon).a = true ↔
          point.z + SpatialObject.sectorDelta adj epsilon > self.depth / 2) ∧
        ((self.sectorOf adj point false epsilon).b = true ↔
          (¬(point.z + SpatialObject.sectorDelta adj epsilon > self.depth / 2) ∧
            -point.z + SpatialObject.sectorDelta adj epsilon > self.depth / 2)) ∧
        ((self.sectorOf adj point false epsilon).o = true ↔
          point.y + SpatialObject.sectorDelta adj epsilon > self.height) ∧
        ((self.sectorOf adj point false epsilon).u = true ↔
          (¬(point.y + SpatialObject.sectorDelta adj epsilon > self.height) ∧
            point.y - SpatialObject.sectorDelta adj epsilon < 0)))) ∧
    (mkBox 1.1 1.1 1.1).sectorOf defaultAdjustment ⟨1.2, 0.21, 1.4⟩ false (-100) =
      { a := true, l := true } := by
  have hg : ∀ (o : SpatialObject) (a : SpatialAdjustment) (pt : Vector3) (e : ℝ),
      ¬((false = true) ∧
        Vector3.length ⟨pt.x, pt.y - o.height / 2, pt.z⟩ > o.nearbyRadius a) := by
    simp
  refine ⟨?_, ?_, ?_⟩
  · rw [sectorOf_eq_inside_iff self adj point false epsilon (hg self adj point epsilon)]
    unfold SpatialObject.sectorInsideCond
    constructor
    · rintro ⟨h1, h2, h3, h4, h5, h6⟩
      refine ⟨abs_le.2 ⟨by linarith, h1⟩, abs_le.2 ⟨by linarith, h3⟩, by linarith, h5⟩
    · rintro ⟨h1, h2, h3, h4⟩
      rcases abs_le.1 h1 with ⟨h1a, h1b⟩
      rcases abs_le.1 h2 with ⟨h2a, h2b⟩
      exact ⟨h1b, by linarith, h2b, by linarith, h4, by linarith⟩
  · intro hi
    exact (sectorOf_outside_fields self adj point false epsilon
      (hg self adj point epsilon) hi).2
  · have hδ : SpatialObject.sectorDelta defaultAdjustment (-100) = (0.02 : ℝ) := by
      rw [SpatialObject.sectorDelta, if_neg (by norm_num)]
      rfl
    have hi : ¬ (mkBox 1.1 1.1 1.1).sectorInsideCond ⟨1.2, 0.21, 1.4⟩
        (SpatialObject.sectorDelta defaultAdjustment (-100)) := by
      rw [hδ]
      unfold SpatialObject.sectorInsideCond mkBox
      push_neg
      intro h
      norm_num at h ⊢
    have hout := sectorOf_of_not_gate (mkBox 1.1 1.1 1.1) defaultAdjustment
      ⟨1.2, 0.21, 1.4⟩ false (-100) (hg _ _ _ (-100))
    rw [if_neg hi] at hout
    rw [hout, hδ]
    have e1 : (mkBox 1.1 1.1 1.1).sectorLR ⟨1.2, 0.21, 1.4⟩ (0.02 : ℝ) =
        { l := true } := by
      rw [SpatialObject.sectorLR, if_pos (by norm_num [mkBox])]
    have e2 : (mkBox 1.1 1.1 1.1).sectorAB ⟨1.2, 0.21, 1.4⟩ (0.02 : ℝ)
        { l := true } = { a := true, l := true } := by
      rw [SpatialObject.sectorAB, if_pos (by norm_num [mkBox])]
    have e3 : (mkBox 1.1 1.1 1.1).sectorOU ⟨1.2, 0.21, 1.4⟩ (0.02 : ℝ)
        { a := true, l := true } = { a := true, l := true } := by
      rw [SpatialObject.sectorOU, if_neg (by norm_num [mkBox]),
        if_neg (by norm_num [mkBox])]
    rw [e1, e2, e3]

/-- Closed instantiation of `claim2_sectorOf_rule`: the 1.1-cube scenario,
with the inside hypothesis of the directional branch discharged at the
same point. -/
theorem claim2_sectorOf_rule_witness :
    ((mkBox 1.1 1.1 1.1).sectorOf defaultAdjustment ⟨1.2, 0.21, 1.4⟩ false (-100) =
      { a := true, l := true }) ∧
    ((mkBox 1.1 1.1 1.1).sectorOf defaultAdjustment ⟨1.2, 0.21, 1.4⟩ false (-100)).a
      = true := by
  have h := claim2_sectorOf_rule (mkBox 1.1 1.1 1.1) defaultAdjustment
    ⟨1.2, 0.21, 1.4⟩ (-100)
  have hδ : SpatialObject.sectorDelta defaultAdjustment (-100) = (0.02 : ℝ) := by
    rw [SpatialObject.sectorDelta, if_neg (by norm_num)]
    rfl
  have hi : ¬ (mkBox 1.1 1.1 1.1).sectorInsideCond ⟨1.2, 0.21, 1.4⟩
      (SpatialObject.sectorDelta defaultAdjustment (-100)) := by
    rw [hδ]
    unfold SpatialObject.sectorInsideCond mkBox
    push_neg
    intro h2
    norm_num at h2 ⊢
  refine ⟨h.2.2, ?_⟩
  exact ((h.2.1 hi).2.2.1).2 (by rw [hδ]; norm_num [mkBox])

/-- C8 (amended): with `nearBy=true`, `sectorOf` first tests the full 3D
distance between the point and the object's local center `(0, height/2, 0)`
— not merely the horizontal distance from the vertical axis — against
`nearbyRadius()`, and returns the empty sector immediately, with no
further classification, exactly when that distance exceeds the radius;
otherwise it classifies the point exactly as the `nearBy=false` call
would. -/
theorem claim8_nearby_gate (self : SpatialObject) (adj : SpatialAdjustment)
    (point : Vector3) (epsilon : ℝ) :
    self.sectorOf adj point true epsilon =
      if Vector3.length ⟨point.x, point.y - self.height / 2, point.z⟩ >
          self.nearbyRadius adj then
        BBoxSector.empty
      else
        self.sectorOf adj point false epsilon := by
  by_cases h : Vector3.length ⟨point.x, point.y - self.height / 2, point.z⟩ >
      self.nearbyRadius adj
  · rw [if_pos h, SpatialObject.sectorOf, if_pos ⟨rfl, h⟩]
  · rw [if_neg h,
      sectorOf_of_not_gate self adj point true epsilon (by simp [h]),
      sectorOf_of_not_gate self adj point false epsilon (by simp)]

/-- C8 (counterexample): for a unit box with a fixed nearby radius of 1 and
the local point (0, 10, 0), the point's horizontal distance from the
vertical axis (0) does not exceed the nearby radius, yet the `nearBy=true`
call returns the empty sector and thus differs from the classification the
claim mandates. -/
theorem claim8_counterexample :
    Real.sqrt (((0 : ℝ)) ^ 2 + ((0 : ℝ)) ^ 2) ≤
      (mkBox 1 1 1).nearbyRadius fixedNearbyAdjustment ∧
    (mkBox 1 1 1).sectorOf fixedNearbyAdjustment ⟨0, 10, 0⟩ true (-100) =
      BBoxSector.empty ∧
    (mkBox 1 1 1).sectorOf fixedNearbyAdjustment ⟨0, 10, 0⟩ true (-100) ≠
      (mkBox 1 1 1).sectorOf fixedNearbyAdjustment ⟨0, 10, 0⟩ false (-100) := by
  have hr : (mkBox 1 1 1).nearbyRadius fixedNearbyAdjustment = (1 : ℝ) := by
    norm_num [SpatialObject.nearbyRadius, fixedNearbyAdjustment]
  have hlen : Vector3.length ⟨(0 : ℝ), (10 : ℝ) - (mkBox 1 1 1).height / 2, (0 : ℝ)⟩ >
      (mkBox 1 1 1).nearbyRadius fixedNearbyAdjustment := by
    rw [hr, Vector3.length]
    have h1 : ((0 : ℝ)) ^ 2 + ((10 : ℝ) - (mkBox 1 1 1).height / 2) ^ 2 + (0 : ℝ) ^ 2 =
        90.25 := by
      norm_num [mkBox]
    rw [h1]
    rw [show (90.25 : ℝ) = 9.5 ^ 2 by norm_num, Real.sqrt_sq (by norm_num)]
    norm_num
  have hempty : (mkBox 1 1 1).sectorOf fixedNearbyAdjustment ⟨0, 10, 0⟩ true (-100) =
      BBoxSector.empty := by
    rw [SpatialObject.sectorOf, if_pos ⟨rfl, hlen⟩]
  have hδ : SpatialObject.sectorDelta fixedNearbyAdjustment (-100) = (0.02 : ℝ) := by
    rw [SpatialObject.sectorDelta, if_neg (by norm_num)]
    rfl
  have hi : ¬ (mkBox 1 1 1).sectorInsideCond ⟨0, 10, 0⟩
      (SpatialObject.sectorDelta fixedNearbyAdjustment (-100)) := by
    rw [hδ]
    unfold SpatialObject.sectorInsideCond mkBox
    push_neg
    intro h1 h2 h3 h4 h5
    norm_num at h5 ⊢
  have hfalse : (mkBox 1 1 1).sectorOf fixedNearbyAdjustment ⟨0, 10, 0⟩ false (-100) =
      { o := true } := by
    have hout := sectorOf_of_not_gate (mkBox 1 1 1) fixedNearbyAdjustment
      ⟨0, 10, 0⟩ false (-100) (by simp)
    rw [if_neg hi] at hout
    rw [hout, hδ]
    have e1 : (mkBox 1 1 1).sectorLR ⟨0, 10, 0⟩ (0.02 : ℝ) = {} := by
      rw [SpatialObject.sectorLR, if_neg (by norm_num [mkBox]),
        if_neg (by norm_num [mkBox])]
    have e2 : (mkBox 1 1 1).sectorAB ⟨0, 10, 0⟩ (0.02 : ℝ) {} = {} := by
      rw [SpatialObject.sectorAB, if_neg (by norm_num [mkBox]),
        if_neg (by norm_num [mkBox])]
    have e3 : (mkBox 1 1 1).sectorOU ⟨0, 10, 0⟩ (0.02 : ℝ) {} = { o := true } := by
      rw [SpatialObject.sectorOU, if_pos (by norm_num [mkBox])]
    rw [e1, e2, e3]
  refine ⟨?_, hempty, ?_⟩
  · rw [hr]
    norm_num [Real.sqrt_eq_zero']
  · rw [hempty, hfalse]
    intro h
    have := congrArg BBoxSector.o h
    simp [BBoxSector.empty] at this

/-- C4: `intoLocal` inverts the world-frame corner generator despite the
opposite rotation signs: mapping each corner of `points(local=false)`
through `intoLocal` yields exactly the eight corners of
`points(local=true)`, because the `+angle` rotation of `intoLocal` undoes
the `-angle` rotation applied when the world-frame corners were built. -/
theorem claim4_intoLocal_inverts_points (self : SpatialObject) :
    (self.points false).map self.intoLocal = self.points true := by
  have hsc := Real.sin_sq_add_cos_sq self.angle
  unfold SpatialObject.points SpatialObject.intoLocal Vector2.rotate
  simp only [Bool.false_eq_true, if_false, if_true, List.map_cons, List.map_nil,
    Real.cos_neg, Real.sin_neg, List.cons.injEq, List.nil_eq, Vector3.mk.injEq,
    and_true, true_and]
  refine ⟨⟨?_, ?_, ?_⟩, ⟨?_, ?_, ?_⟩, ⟨?_, ?_, ?_⟩, ⟨?_, ?_, ?_⟩,
    ⟨?_, ?_, ?_⟩, ⟨?_, ?_, ?_⟩, ⟨?_, ?_, ?_⟩, ?_, ?_, ?_⟩ <;>
    first
      | ring1
      | linear_combination (self.width / 2) * hsc
      | linear_combination (-(self.width / 2)) * hsc
      | linear_combination (self.depth / 2) * hsc
      | linear_combination (-(self.depth / 2)) * hsc

/-- Helper for C6: no input whatsoever makes `comparisons` emit `smaller`:
the source's `bigger` branch tests `self.width*self.depth*self.height -
subject.volume`, which is the same quantity as the `smaller` branch's
`-(subject.volume - self.volume)`, so the `elif` is unreachable. -/
lemma smaller_not_mem_comparisons (adj : SpatialAdjustment) (a b : SpatialObject) :
    SpatialPredicate.smaller ∉
      (SpatialObject.comparisons adj a b).map SpatialRelation.predicate := by
  unfold SpatialObject.comparisons
  intro h
  simp only [List.map_append, List.mem_append] at h
  rcases h with (((h | h) | h) | h) | h
  · unfold SpatialObject.comparisonLength at h
    split_ifs at h <;> simp_all
  · unfold SpatialObject.comparisonHeight at h
    split_ifs at h <;> simp_all
  · unfold SpatialObject.comparisonFootprint at h
    split_ifs at h <;> simp_all
  · unfold SpatialObject.comparisonVolume at h
    split_ifs at h with h1 h2 <;> simp_all
    unfold SpatialObject.volume at h1 h2
    linarith
  · unfold SpatialObject.comparisonFitting at h
    split_ifs at h <;> simp_all

/-- C6: the claim describes the intended volume comparison, but the code
contradicts it (and its own test suite): at a unit-cube object and a
half-cube subject — whose volume is smaller, so the claim demands a single
`smaller` relation — `comparisons` emits `bigger` and `exceeding` and
cannot emit `smaller` for any input at all. -/
theorem claim6_volume_comparison_bug :
    (SpatialPredicate.bigger ∈
      (SpatialObject.comparisons defaultAdjustment (mkBox 1 1 1)
        (mkBox 0.5 0.5 0.5)).map SpatialRelation.predicate) ∧
    (SpatialPredicate.exceeding ∈
      (SpatialObject.comparisons defaultAdjustment (mkBox 1 1 1)
        (mkBox 0.5 0.5 0.5)).map SpatialRelation.predicate) ∧
    (mkBox 0.5 0.5 0.5).volume < (mkBox 1 1 1).volume ∧
    ∀ (adj : SpatialAdjustment) (a b : SpatialObject),
      SpatialPredicate.smaller ∉
        (SpatialObject.comparisons adj a b).map SpatialRelation.predicate := by
  have hb : SpatialObject.comparisonVolume defaultAdjustment (mkBox 1 1 1)
      (mkBox 0.5 0.5 0.5)
      ((mkBox 0.5 0.5 0.5).angle - (mkBox 1 1 1).angle) =
      [⟨.bigger, (mkBox 0.5 0.5 0.5).volume - (mkBox 1 1 1).volume,
         (mkBox 0.5 0.5 0.5).angle - (mkBox 1 1 1).angle⟩,
       ⟨.exceeding, (mkBox 0.5 0.5 0.5).volume - (mkBox 1 1 1).volume,
         (mkBox 0.5 0.5 0.5).angle - (mkBox 1 1 1).angle⟩] := by
    rw [SpatialObject.comparisonVolume,
      if_pos (by norm_num [mkBox, SpatialObject.volume, defaultAdjustment])]
  refine ⟨?_, ?_, ?_, smaller_not_mem_comparisons⟩
  · simp [SpatialObject.comparisons, List.map_append, hb]
  · simp [SpatialObject.comparisons, List.map_append, hb]
  · norm_num [mkBox, SpatialObject.volume]

/-! ### Which predicates each cascade step can emit -/

lemma haveSameCenter_preds (self subject : SpatialObject) (d : ℝ) :
    ∀ r ∈ SpatialObject.haveSameCenter self subject d, r.predicate = .samecenter := by
  intro r hr
  unfold SpatialObject.haveSameCenter at hr
  split_ifs at hr <;> simp_all

lemma haveSameCenter_delta (self subject : SpatialObject) (d : ℝ) :
    ∀ r ∈ SpatialObject.haveSameCenter self subject d, r.delta = d := by
  intro r hr
  unfold SpatialObject.haveSameCenter at hr
  split_ifs at hr <;> simp_all

lemma areNearOrFar_preds (adj : SpatialAdjustment) (self subject : SpatialObject)
    (d : ℝ) :
    ∀ r ∈ SpatialObject.areNearOrFar adj self subject d,
      r.predicate = .near ∨ r.predicate = .far := by
  intro r hr
  unfold SpatialObject.areNearOrFar at hr
  split_ifs at hr <;> simp_all

lemma areDisjoint_preds (self subject : SpatialObject) (d : ℝ) (c : Prop) :
    ∀ r ∈ SpatialObject.areDisjoint self subject d c, r.predicate = .disjoint := by
  intro r hr
  unfold SpatialObject.areDisjoint at hr
  split_ifs at hr <;> simp_all

lemma basicAdjacency_preds (self subject : SpatialObject) (z : BBoxSector) :
    ∀ r ∈ SpatialObject.basicAdjacency self subject z,
      r.predicate ∈ ([.left, .right, .ahead, .behind, .above, .below] :
        List SpatialPredicate) := by
  intro r hr
  unfold SpatialObject.basicAdjacency at hr
  simp only [List.mem_append] at hr
  rcases hr with (hr | hr) | hr <;> split_ifs at hr <;> simp_all

lemma catchSideLR_preds (self : SpatialObject) (nz : BBoxSector)
    (pts : List Vector3) (theta : ℝ) :
    ∀ r ∈ (SpatialObject.catchSideLR self nz pts theta).1,
      r.predicate = .leftside ∨ r.predicate = .rightside := by
  intro r hr
  unfold SpatialObject.catchSideLR at hr
  split_ifs at hr <;> simp_all

lemma catchSideOU_preds (adj : SpatialAdjustment) (conn : Bool)
    (self : SpatialObject) (nz : BBoxSector) (pts : List Vector3) (theta : ℝ) :
    ∀ r ∈ SpatialObject.catchSideOU adj conn self nz pts theta,
      r.predicate ∈ ([.ontop, .on, .upperside, .beneath, .lowerside] :
        List SpatialPredicate) := by
  intro r hr
  unfold SpatialObject.catchSideOU at hr
  split_ifs at hr <;>
    (try simp only [List.mem_append, List.mem_cons, List.not_mem_nil, or_false,
      List.mem_singleton, or_assoc] at hr) <;>
    (first
      | exact hr.elim
      | (rcases hr with (rfl | rfl | rfl | rfl) <;> simp)
      | (rcases hr with (rfl | rfl | rfl) <;> simp)
      | (rcases hr with (rfl | rfl) <;> simp)
      | (rcases hr with rfl <;> simp)
      | simp_all)

lemma catchSideAB_preds (self : SpatialObject) (nz : BBoxSector)
    (pts : List Vector3) (theta : ℝ) :
    ∀ r ∈ (SpatialObject.catchSideAB self nz pts theta).1,
      r.predicate = .frontside ∨ r.predicate = .backside := by
  intro r hr
  unfold SpatialObject.catchSideAB at hr
  split_ifs at hr <;> simp_all

lemma catchSideBeside_preds (is_beside : Bool) (g : WithTop ℝ) (theta : ℝ) :
    ∀ r ∈ SpatialObject.catchSideBeside is_beside g theta,
      r.predicate = .beside ∨ r.predicate = .touching := by
  intro r hr
  unfold SpatialObject.catchSideBeside at hr
  split_ifs at hr <;>
    (try simp only [List.mem_append, List.mem_cons, List.not_mem_nil, or_false,
      List.mem_singleton, or_assoc] at hr) <;>
    (first
      | exact hr.elim
      | (rcases hr with (rfl | rfl | rfl | rfl) <;> simp)
      | (rcases hr with (rfl | rfl | rfl) <;> simp)
      | (rcases hr with (rfl | rfl) <;> simp)
      | (rcases hr with rfl <;> simp)
      | simp_all)

lemma catchSide_preds (adj : SpatialAdjustment) (conn : Bool)
    (self subject : SpatialObject) :
    ∀ r ∈ (SpatialObject.catchSide adj conn self subject).2,
      r.predicate ∈ ([.leftside, .rightside, .ontop, .on, .upperside, .beneath,
        .lowerside, .frontside, .backside, .beside, .touching] :
        List SpatialPredicate) := by
  intro r hr
  unfold SpatialObject.catchSide at hr
  simp only [List.mem_append] at hr
  rcases hr with ((hr | hr) | hr) | hr
  · rcases catchSideLR_preds _ _ _ _ r hr with h | h <;> simp [h]
  · have := catchSideOU_preds _ _ _ _ _ _ r hr
    simp only [List.mem_cons, List.not_mem_nil, or_false] at this
    rcases this with h | h | h | h | h <;> simp [h]
  · rcases catchSideAB_preds _ _ _ _ r hr with h | h <;> simp [h]
  · rcases catchSideBeside_preds _ _ _ r hr with h | h <;> simp [h]

lemma contactRels_preds (adj : SpatialAdjustment) (conn : Bool)
    (self subject : SpatialObject) (aligned can_not_overlap : Prop) (theta : ℝ) :
    ∀ r ∈ SpatialObject.contactRels adj conn self subject aligned can_not_overlap theta,
      r.predicate ∈ ([.touching, .by_, .meeting, .at_] : List SpatialPredicate) := by
  intro r hr
  unfold SpatialObject.contactRels at hr
  split_ifs at hr <;>
    (try simp only [List.mem_append, List.mem_cons, List.not_mem_nil, or_false,
      List.mem_singleton, or_assoc] at hr) <;>
    (first
      | exact hr.elim
      | (rcases hr with (rfl | rfl | rfl | rfl) <;> simp)
      | (rcases hr with (rfl | rfl | rfl) <;> simp)
      | (rcases hr with (rfl | rfl) <;> simp)
      | (rcases hr with rfl <;> simp)
      | simp_all)

lemma checkAssembly_preds (adj : SpatialAdjustment) (conn : Bool)
    (self subject : SpatialObject) (aligned : Prop) :
    ∀ r ∈ SpatialObject.checkAssembly adj conn self subject aligned,
      r.predicate ∈ ([.inside, .in_, .containing, .overlapping, .crossing,
        .touching, .by_, .meeting, .at_, .disjoint] : List SpatialPredicate) := by
  intro r hr
  unfold SpatialObject.checkAssembly at hr
  by_cases h1 : SpatialObject.allInsideCond adj self subject
  · rw [if_pos h1] at hr
    split_ifs at hr <;>
      (try simp only [List.mem_append, List.mem_cons, List.not_mem_nil, or_false,
        List.mem_singleton, or_assoc] at hr) <;>
      (first
        | exact hr.elim
        | (rcases hr with (rfl | rfl) <;> simp)
        | (rcases hr with rfl <;> simp)
        | simp_all)
  · rw [if_neg h1] at hr
    by_cases h2 : SpatialObject.containingCond self subject
        (SpatialObject.centerDistance self subject)
    · rw [if_pos h2] at hr
      simp only [List.mem_singleton] at hr
      subst hr
      simp
    · rw [if_neg h2] at hr
      simp only [List.mem_append, or_assoc] at hr
      rcases hr with hov | hcr | hco | hd
      · split_ifs at hov <;>
          (try simp only [List.mem_cons, List.not_mem_nil, or_false,
            List.mem_singleton] at hov) <;>
          (first | exact hov.elim | (rcases hov with rfl <;> simp) | simp_all)
      · split_ifs at hcr <;>
          (try simp only [List.mem_cons, List.not_mem_nil, or_false,
            List.mem_singleton] at hcr) <;>
          (first | exact hcr.elim | (rcases hcr with rfl <;> simp) | simp_all)
      · have hp := contactRels_preds _ _ _ _ _ _ _ r hco
        simp only [List.mem_cons, List.not_mem_nil, or_false] at hp
        rcases hp with h | h | h | h <;> simp [h]
      · split_ifs at hd <;>
          (try simp only [List.mem_cons, List.not_mem_nil, or_false,
            List.mem_singleton] at hd) <;>
          (first | exact hd.elim | (rcases hd with rfl <;> simp) | simp_all)

lemma deduceOrientation_preds (adj : SpatialAdjustment)
    (self subject : SpatialObject) :
    ∀ r ∈ SpatialObject.deduceOrientation adj self subject,
      r.predicate ∈ ([.aligned, .frontaligned, .backaligned, .rightaligned,
        .leftaligned, .opposite, .orthogonal] : List SpatialPredicate) := by
  intro r hr
  unfold SpatialObject.deduceOrientation at hr
  split_ifs at hr <;>
    (try simp only [List.mem_append, List.mem_cons, List.not_mem_nil, or_false,
      List.mem_singleton, or_assoc] at hr) <;>
    (first
      | exact hr.elim
      | (rcases hr with (rfl | rfl | rfl | rfl | rfl) <;> simp)
      | (rcases hr with (rfl | rfl | rfl | rfl) <;> simp)
      | (rcases hr with (rfl | rfl | rfl) <;> simp)
      | (rcases hr with (rfl | rfl) <;> simp)
      | (rcases hr with rfl <;> simp)
      | simp_all)

/-- A predicate outside a step's emission set never appears in that step's
mapped output. -/
lemma not_mem_map_pred {L : List SpatialRelation} {S : List SpatialPredicate}
    (h : ∀ r ∈ L, r.predicate ∈ S) {p : SpatialPredicate} (hp : p ∉ S) :
    p ∉ L.map SpatialRelation.predicate := by
  intro hmem
  rcases List.mem_map.1 hmem with ⟨r, hr, he⟩
  exact hp (he ▸ h r hr)

/-- `near` appears in the near/far step exactly below the radius sum. -/
lemma areNearOrFar_near_iff (adj : SpatialAdjustment) (a b : SpatialObject) (d : ℝ) :
    (SpatialPredicate.near ∈
      (SpatialObject.areNearOrFar adj a b d).map SpatialRelation.predicate) ↔
      d < b.nearbyRadius adj + a.nearbyRadius adj := by
  unfold SpatialObject.areNearOrFar
  split_ifs with h <;> simp [h]

/-- `far` appears in the near/far step exactly at or above the radius sum. -/
lemma areNearOrFar_far_iff (adj : SpatialAdjustment) (a b : SpatialObject) (d : ℝ) :
    (SpatialPredicate.far ∈
      (SpatialObject.areNearOrFar adj a b d).map SpatialRelation.predicate) ↔
      ¬(d < b.nearbyRadius adj + a.nearbyRadius adj) := by
  unfold SpatialObject.areNearOrFar
  split_ifs with h <;> simp [h]

/-- `samecenter` appears in the same-center step exactly below `1e-6`. -/
lemma haveSameCenter_mem_iff (a b : SpatialObject) (d : ℝ) :
    (SpatialPredicate.samecenter ∈
      (SpatialObject.haveSameCenter a b d).map SpatialRelation.predicate) ↔
      d < 1e-6 := by
  unfold SpatialObject.haveSameCenter
  split_ifs with h <;> simp [h]

/-- Membership of a predicate in the full cascade reduces to the eight
steps. -/
lemma mem_topologies_iff (adj : SpatialAdjustment) (conn : Bool)
    (a b : SpatialObject) (p : SpatialPredicate) :
    p ∈ (SpatialObject.topologies adj conn a b).map SpatialRelation.predicate ↔
      (p ∈ (SpatialObject.haveSameCenter a b
        (SpatialObject.centerDistance a b)).map SpatialRelation.predicate ∨
       p ∈ (SpatialObject.areNearOrFar adj a b
        (SpatialObject.centerDistance a b)).map SpatialRelation.predicate ∨
       p ∈ (SpatialObject.areDisjoint a b (SpatialObject.centerDistance a b)
        (SpatialObject.centerDistance a b > a.radius + b.radius)).map
          SpatialRelation.predicate ∨
       p ∈ (SpatialObject.basicAdjacency a b
        (a.sectorOf adj (a.intoLocal b.center) false (-adj.maxGap))).map
          SpatialRelation.predicate ∨
       p ∈ ((SpatialObject.catchSide adj conn a b).2).map SpatialRelation.predicate ∨
       p ∈ (SpatialObject.checkAssembly adj conn a b
        (SpatialObject.catchSide adj conn a b).1).map SpatialRelation.predicate ∨
       p ∈ (SpatialObject.deduceOrientation adj a b).map SpatialRelation.predicate) := by
  unfold SpatialObject.topologies SpatialObject.deduceVisibility
  simp only [List.map_append, List.mem_append, List.map_nil, List.not_mem_nil,
    or_false, or_assoc]

/-- `samecenter` appears in the full cascade exactly when the center
distance is below the hard-coded `1e-6` (no other step emits it). -/
lemma samecenter_mem_topologies_iff (adj : SpatialAdjustment) (conn : Bool)
    (a b : SpatialObject) :
    (SpatialPredicate.samecenter ∈
      (SpatialObject.topologies adj conn a b).map SpatialRelation.predicate) ↔
      SpatialObject.centerDistance a b < 1e-6 := by
  rw [mem_topologies_iff]
  have e2 : SpatialPredicate.samecenter ∉
      (SpatialObject.areNearOrFar adj a b
        (SpatialObject.centerDistance a b)).map SpatialRelation.predicate := by
    intro hm
    rcases List.mem_map.1 hm with ⟨r, hr, he⟩
    rcases areNearOrFar_preds adj a b _ r hr with h | h <;> rw [he] at h <;> simp at h
  have e3 : SpatialPredicate.samecenter ∉
      (SpatialObject.areDisjoint a b (SpatialObject.centerDistance a b)
        (SpatialObject.centerDistance a b > a.radius + b.radius)).map
        SpatialRelation.predicate := by
    intro hm
    rcases List.mem_map.1 hm with ⟨r, hr, he⟩
    have := areDisjoint_preds a b _ _ r hr
    rw [he] at this
    simp at this
  have e4 : SpatialPredicate.samecenter ∉
      (SpatialObject.basicAdjacency a b
        (a.sectorOf adj (a.intoLocal b.center) false (-adj.maxGap))).map
        SpatialRelation.predicate :=
    not_mem_map_pred (basicAdjacency_preds a b _) (by simp)
  have e5 : SpatialPredicate.samecenter ∉
      ((SpatialObject.catchSide adj conn a b).2).map SpatialRelation.predicate :=
    not_mem_map_pred (catchSide_preds adj conn a b) (by simp)
  have e6 : SpatialPredicate.samecenter ∉
      (SpatialObject.checkAssembly adj conn a b
        (SpatialObject.catchSide adj conn a b).1).map SpatialRelation.predicate :=
    not_mem_map_pred (checkAssembly_preds adj conn a b _) (by simp)
  have e7 : SpatialPredicate.samecenter ∉
      (SpatialObject.deduceOrientation adj a b).map SpatialRelation.predicate :=
    not_mem_map_pred (deduceOrientation_preds adj a b) (by simp)
  simp only [e2, e3, e4, e5, e6, e7, or_false, false_or,
    haveSameCenter_mem_iff]

/-- Helper: a step whose relations all carry one fixed predicate cannot
contribute any other predicate. -/
lemma not_mem_map_pred_single {L : List SpatialRelation} {q : SpatialPredicate}
    (h : ∀ r ∈ L, r.predicate = q) {p : SpatialPredicate} (hp : p ≠ q) :
    p ∉ L.map SpatialRelation.predicate := by
  intro hmem
  rcases List.mem_map.1 hmem with ⟨r, hr, he⟩
  exact hp (he ▸ h r hr)

/-- Helper: same for a step limited to a pair of predicates. -/
lemma not_mem_map_pred_pair {L : List SpatialRelation} {q1 q2 : SpatialPredicate}
    (h : ∀ r ∈ L, r.predicate = q1 ∨ r.predicate = q2) {p : SpatialPredicate}
    (hp1 : p ≠ q1) (hp2 : p ≠ q2) : p ∉ L.map SpatialRelation.predicate := by
  intro hmem
  rcases List.mem_map.1 hmem with ⟨r, hr, he⟩
  rcases h r hr with h2 | h2
  · exact hp1 (he ▸ h2)
  · exact hp2 (he ▸ h2)

/-- C1: every call of the cascade emits exactly one of `near`/`far` —
`near` exactly when the center distance is strictly below the sum of the
two nearby radii, `far` otherwise; never both, never neither. -/
theorem claim1_near_far_exclusive (adj : SpatialAdjustment) (conn : Bool)
    (a b : SpatialObject) :
    ((SpatialPredicate.near ∈
        (SpatialObject.topologies adj conn a b).map SpatialRelation.predicate) ↔
      SpatialObject.centerDistance a b <
        a.nearbyRadius adj + b.nearbyRadius adj) ∧
    ((SpatialPredicate.far ∈
        (SpatialObject.topologies adj conn a b).map SpatialRelation.predicate) ↔
      ¬(SpatialObject.centerDistance a b <
        a.nearbyRadius adj + b.nearbyRadius adj)) := by
  constructor
  · rw [mem_topologies_iff]
    have e1 : SpatialPredicate.near ∉
        (SpatialObject.haveSameCenter a b
          (SpatialObject.centerDistance a b)).map SpatialRelation.predicate :=
      not_mem_map_pred_single (haveSameCenter_preds a b _) (by decide)
    have e3 : SpatialPredicate.near ∉
        (SpatialObject.areDisjoint a b (SpatialObject.centerDistance a b)
          (SpatialObject.centerDistance a b > a.radius + b.radius)).map
          SpatialRelation.predicate :=
      not_mem_map_pred_single (areDisjoint_preds a b _ _) (by decide)
    have e4 : SpatialPredicate.near ∉
        (SpatialObject.basicAdjacency a b
          (a.sectorOf adj (a.intoLocal b.center) false (-adj.maxGap))).map
          SpatialRelation.predicate :=
      not_mem_map_pred (basicAdjacency_preds a b _) (by decide)
    have e5 : SpatialPredicate.near ∉
        ((SpatialObject.catchSide adj conn a b).2).map SpatialRelation.predicate :=
      not_mem_map_pred (catchSide_preds adj conn a b) (by decide)
    have e6 : SpatialPredicate.near ∉
        (SpatialObject.checkAssembly adj conn a b
          (SpatialObject.catchSide adj conn a b).1).map SpatialRelation.predicate :=
      not_mem_map_pred (checkAssembly_preds adj conn a b _) (by decide)
    have e7 : SpatialPredicate.near ∉
        (SpatialObject.deduceOrientation adj a b).map SpatialRelation.predicate :=
      not_mem_map_pred (deduceOrientation_preds adj a b) (by decide)
    simp only [e1, e3, e4, e5, e6, e7, or_false, false_or,
      areNearOrFar_near_iff]
    constructor <;> intro h <;> linarith
  · rw [mem_topologies_iff]
    have e1 : SpatialPredicate.far ∉
        (SpatialObject.haveSameCenter a b
          (SpatialObject.centerDistance a b)).map SpatialRelation.predicate :=
      not_mem_map_pred_single (haveSameCenter_preds a b _) (by decide)
    have e3 : SpatialPredicate.far ∉
        (SpatialObject.areDisjoint a b (SpatialObject.centerDistance a b)
          (SpatialObject.centerDistance a b > a.radius + b.radius)).map
          SpatialRelation.predicate :=
      not_mem_map_pred_single (areDisjoint_preds a b _ _) (by decide)
    have e4 : SpatialPredicate.far ∉
        (SpatialObject.basicAdjacency a b
          (a.sectorOf adj (a.intoLocal b.center) false (-adj.maxGap))).map
          SpatialRelation.predicate :=
      not_mem_map_pred (basicAdjacency_preds a b _) (by decide)
    have e5 : SpatialPredicate.far ∉
        ((SpatialObject.catchSide adj conn a b).2).map SpatialRelation.predicate :=
      not_mem_map_pred (catchSide_preds adj conn a b) (by decide)
    have e6 : SpatialPredicate.far ∉
        (SpatialObject.checkAssembly adj conn a b
          (SpatialObject.catchSide adj conn a b).1).map SpatialRelation.predicate :=
      not_mem_map_pred (checkAssembly_preds adj conn a b _) (by decide)
    have e7 : SpatialPredicate.far ∉
        (SpatialObject.deduceOrientation adj a b).map SpatialRelation.predicate :=
      not_mem_map_pred (deduceOrientation_preds adj a b) (by decide)
    simp only [e1, e3, e4, e5, e6, e7, or_false, false_or,
      areNearOrFar_far_iff]
    constructor <;> intro h <;> intro h2 <;> apply h <;> linarith

/-- Unit box shifted by 0.01 along x, as built by
`SpatialObject(id=..., position=Vector3(0.01, 0, 0))`. -/
def shiftedBox : SpatialObject := { id := "box2", position := ⟨0.01, 0, 0⟩ }

/-- Center distance of the shifted pair evaluates to 0.01. -/
lemma shiftedBox_centerDistance :
    SpatialObject.centerDistance (mkBox 1 1 1) shiftedBox = 0.01 := by
  unfold SpatialObject.centerDistance SpatialObject.center Vector3.sub
    Vector3.length mkBox shiftedBox
  rw [Real.sqrt_eq_iff_sq_eq (by positivity) (by norm_num)]
  norm_num

/-- Any unit-base box has a default nearby radius of at least 1. -/
lemma nearbyRadius_ge_one (o : SpatialObject) (hw : o.width = 1)
    (hd : o.depth = 1) : (1 : ℝ) ≤ o.nearbyRadius defaultAdjustment := by
  have hred : o.nearbyRadius defaultAdjustment =
      min (o.baseradius * defaultAdjustment.nearbyFactor)
        defaultAdjustment.nearbyLimit := rfl
  have hfac : defaultAdjustment.nearbyFactor = 2 := by norm_num [defaultAdjustment]
  have hlim : defaultAdjustment.nearbyLimit = 2.5 := by norm_num [defaultAdjustment]
  have hb : (0.5 : ℝ) ≤ o.baseradius := by
    unfold SpatialObject.baseradius
    rw [hw, hd, Real.le_sqrt (by norm_num) (by norm_num)]
    norm_num
  rw [hred, hfac, hlim]
  refine le_min (by linarith) (by norm_num)

/-- Closed instantiation of `claim1_near_far_exclusive`: the shifted unit
pair is near, and its distance is below the radius sum. -/
theorem claim1_witness :
    (SpatialPredicate.near ∈
      (SpatialObject.topologies defaultAdjustment false (mkBox 1 1 1)
        shiftedBox).map SpatialRelation.predicate) ∧
    SpatialObject.centerDistance (mkBox 1 1 1) shiftedBox <
      (mkBox 1 1 1).nearbyRadius defaultAdjustment +
        shiftedBox.nearbyRadius defaultAdjustment := by
  have h1 : (1 : ℝ) ≤ (mkBox 1 1 1).nearbyRadius defaultAdjustment :=
    nearbyRadius_ge_one _ rfl rfl
  have h2 : (1 : ℝ) ≤ shiftedBox.nearbyRadius defaultAdjustment :=
    nearbyRadius_ge_one _ (by norm_num [shiftedBox]) (by norm_num [shiftedBox])
  have hlt : SpatialObject.centerDistance (mkBox 1 1 1) shiftedBox <
      (mkBox 1 1 1).nearbyRadius defaultAdjustment +
        shiftedBox.nearbyRadius defaultAdjustment := by
    rw [shiftedBox_centerDistance]
    linarith
  exact ⟨(claim1_near_far_exclusive defaultAdjustment false (mkBox 1 1 1)
    shiftedBox).1.2 hlt, hlt⟩

/-- C7 (amended): the cascade emits `samecenter` exactly when the center
distance is strictly below the hard-coded `1e-6` (not `maxGap`), and every
`samecenter` relation carries the center distance as its delta. -/
theorem claim7_samecenter_threshold (adj : SpatialAdjustment) (conn : Bool)
    (a b : SpatialObject) :
    ((SpatialPredicate.samecenter ∈
        (SpatialObject.topologies adj conn a b).map SpatialRelation.predicate) ↔
      SpatialObject.centerDistance a b < 1e-6) ∧
    (∀ r ∈ SpatialObject.topologies adj conn a b,
      r.predicate = .samecenter → r.delta = SpatialObject.centerDistance a b) := by
  refine ⟨samecenter_mem_topologies_iff adj conn a b, ?_⟩
  intro r hr hp
  unfold SpatialObject.topologies SpatialObject.deduceVisibility at hr
  simp only [List.mem_append, List.not_mem_nil, or_false, or_assoc] at hr
  rcases hr with h | h | h | h | h | h | h
  · exact haveSameCenter_delta a b _ r h
  · rcases areNearOrFar_preds adj a b _ r h with h2 | h2 <;> rw [hp] at h2 <;>
      simp at h2
  · have h2 := areDisjoint_preds a b _ _ r h
    rw [hp] at h2
    simp at h2
  · have h2 := basicAdjacency_preds a b _ r h
    rw [hp] at h2
    simp at h2
  · have h2 := catchSide_preds adj conn a b r h
    rw [hp] at h2
    simp at h2
  · have h2 := checkAssembly_preds adj conn a b _ r h
    rw [hp] at h2
    simp at h2
  · have h2 := deduceOrientation_preds adj a b r h
    rw [hp] at h2
    simp at h2

/-- C7 (counterexample): two unit cubes 0.01 apart are closer than
`maxGap` (0.02), yet the cascade does not emit `samecenter` — the code's
threshold is `1e-6`, not `maxGap`. -/
theorem claim7_counterexample :
    SpatialObject.centerDistance (mkBox 1 1 1) shiftedBox <
      defaultAdjustment.maxGap ∧
    SpatialPredicate.samecenter ∉
      (SpatialObject.topologies defaultAdjustment false (mkBox 1 1 1)
        shiftedBox).map SpatialRelation.predicate := by
  constructor
  · rw [shiftedBox_centerDistance,
      show defaultAdjustment.maxGap = (0.02 : ℝ) from rfl]
    norm_num
  · rw [samecenter_mem_topologies_iff, shiftedBox_centerDistance]
    norm_num

/-- Closed instantiation of `claim7_samecenter_threshold` at the shifted
unit pair. -/
theorem claim7_witness :
    SpatialPredicate.samecenter ∉
      (SpatialObject.topologies defaultAdjustment false (mkBox 1 1 1)
        shiftedBox).map SpatialRelation.predicate := by
  have h := claim7_samecenter_threshold defaultAdjustment false (mkBox 1 1 1)
    shiftedBox
  rw [h.1, shiftedBox_centerDistance]
  norm_num

/-- Triple-size cube positioned so that its center coincides with the unit
cube's, as built by
`SpatialObject(id=..., position=Vector3(-1,-1,-1), width=3, height=3, depth=3)`. -/
def bigBox : SpatialObject :=
  { id := "big", position := ⟨-1, -1, -1⟩, width := 3, height := 3, depth := 3 }

/-- C5 (amended): in the assembly step, when not all eight subject corners
classify as inside, `containing` is emitted exactly when the subject's
radius exceeds the object's by more than half the center distance and the
subject's width, height and depth each strictly exceed the object's — the
roles are the reverse of the claim's. -/
theorem claim5_containing_rule (adj : SpatialAdjustment) (conn : Bool)
    (self subject : SpatialObject) (aligned : Prop)
    (h : ¬ SpatialObject.allInsideCond adj self subject) :
    (SpatialPredicate.containing ∈
        (SpatialObject.checkAssembly adj conn self subject aligned).map
          SpatialRelation.predicate) ↔
      (subject.radius - self.radius >
          SpatialObject.centerDistance self subject / 2 ∧
        subject.width > self.width ∧ subject.height > self.height ∧
        subject.depth > self.depth) := by
  unfold SpatialObject.checkAssembly
  rw [if_neg h]
  by_cases h2 : SpatialObject.containingCond self subject
      (SpatialObject.centerDistance self subject)
  · rw [if_pos h2]
    unfold SpatialObject.containingCond at h2
    exact iff_of_true (by simp) h2
  · rw [if_neg h2]
    unfold SpatialObject.containingCond at h2
    refine iff_of_false ?_ h2
    intro hm
    simp only [List.map_append, List.mem_append, or_assoc] at hm
    rcases hm with hm | hm | hm | hm
    · split_ifs at hm <;> simp at hm
    · split_ifs at hm <;> simp at hm
    · exact (not_mem_map_pred
        (contactRels_preds adj conn self subject aligned _ _) (by decide)) hm
    · split_ifs at hm <;> simp at hm

/-- Local corners of `bigBox` in the unit cube's frame (both yaws are 0, so
the transforms reduce to translations). -/
lemma bigBox_localPts :
    SpatialObject.localSubjectPts (mkBox 1 1 1) bigBox =
      [⟨0.5, -1, 0.5⟩, ⟨-2.5, -1, 0.5⟩, ⟨-2.5, -1, -2.5⟩, ⟨0.5, -1, -2.5⟩,
       ⟨0.5, 2, 0.5⟩, ⟨-2.5, 2, 0.5⟩, ⟨-2.5, 2, -2.5⟩, ⟨0.5, 2, -2.5⟩] := by
  unfold SpatialObject.localSubjectPts SpatialObject.intoLocal_pts
    SpatialObject.intoLocal SpatialObject.points Vector2.rotate mkBox bigBox
  simp only [List.map_cons, List.map_nil]
  norm_num [Real.cos_zero, Real.sin_zero, Vector3.mk.injEq]

/-- The first corner of `bigBox` does not classify inside the unit cube. -/
lemma bigBox_corner_not_inside :
    ((mkBox 1 1 1).sectorOf defaultAdjustment ⟨0.5, -1, 0.5⟩ false 0.00001).i =
      false := by
  have hg : ¬((false = true) ∧
      Vector3.length ⟨(0.5 : ℝ), (-1 : ℝ) - (mkBox 1 1 1).height / 2, (0.5 : ℝ)⟩ >
        (mkBox 1 1 1).nearbyRadius defaultAdjustment) := by simp
  have hδ : SpatialObject.sectorDelta defaultAdjustment 0.00001 = (0.00001 : ℝ) := by
    rw [SpatialObject.sectorDelta, if_pos (by norm_num)]
  have hi : ¬ (mkBox 1 1 1).sectorInsideCond ⟨0.5, -1, 0.5⟩
      (SpatialObject.sectorDelta defaultAdjustment 0.00001) := by
    rw [hδ]
    unfold SpatialObject.sectorInsideCond mkBox
    push_neg
    intro h1 h2 h3 h4 h5
    norm_num at h5 ⊢
  exact (sectorOf_outside_fields (mkBox 1 1 1) defaultAdjustment ⟨0.5, -1, 0.5⟩
    false 0.00001 hg hi).1

/-- Not all corners of `bigBox` are inside the unit cube. -/
lemma bigBox_not_allInside :
    ¬ SpatialObject.allInsideCond defaultAdjustment (mkBox 1 1 1) bigBox := by
  unfold SpatialObject.allInsideCond
  push_neg
  refine ⟨(mkBox 1 1 1).sectorOf defaultAdjustment ⟨0.5, -1, 0.5⟩ false 0.00001,
    ?_, by rw [bigBox_corner_not_inside]; simp⟩
  unfold SpatialObject.assemblyZones
  rw [bigBox_localPts]
  exact List.mem_map_of_mem _ (by simp)

/-- The unit cube and `bigBox` share their center. -/
lemma bigBox_centerDistance :
    SpatialObject.centerDistance (mkBox 1 1 1) bigBox = 0 := by
  unfold SpatialObject.centerDistance SpatialObject.center Vector3.sub
    Vector3.length mkBox bigBox
  norm_num

/-- The containing test of the source holds for the pair. -/
lemma bigBox_containingCond :
    SpatialObject.containingCond (mkBox 1 1 1) bigBox
      (SpatialObject.centerDistance (mkBox 1 1 1) bigBox) := by
  have hrad : (mkBox 1 1 1).radius < bigBox.radius := by
    unfold SpatialObject.radius Vector3.length mkBox bigBox
    apply Real.sqrt_lt_sqrt (by positivity)
    norm_num
  refine ⟨?_, by norm_num [mkBox, bigBox], by norm_num [mkBox, bigBox],
    by norm_num [mkBox, bigBox]⟩
  rw [bigBox_centerDistance]
  simp only [zero_div]
  linarith

/-- C5 (counterexample): with the unit cube as object and `bigBox` as
subject — not all corners inside — the assembly step emits `containing`,
while the claim's condition (the object dominating the subject) is false. -/
theorem claim5_counterexample :
    (SpatialPredicate.containing ∈
      (SpatialObject.checkAssembly defaultAdjustment false (mkBox 1 1 1) bigBox
        True).map SpatialRelation.predicate) ∧
    ¬((mkBox 1 1 1).radius - bigBox.radius >
          SpatialObject.centerDistance (mkBox 1 1 1) bigBox / 2 ∧
        (mkBox 1 1 1).width > bigBox.width ∧
        (mkBox 1 1 1).height > bigBox.height ∧
        (mkBox 1 1 1).depth > bigBox.depth) := by
  constructor
  · unfold SpatialObject.checkAssembly
    rw [if_neg bigBox_not_allInside, if_pos bigBox_containingCond]
    simp
  · rintro ⟨h1, h2, h3, h4⟩
    norm_num [mkBox, bigBox] at h2

/-- Closed instantiation of `claim5_containing_rule` at the unit cube and
`bigBox` pair, with the not-all-inside hypothesis discharged there. -/
theorem claim5_witness :
    SpatialPredicate.containing ∈
      (SpatialObject.checkAssembly defaultAdjustment false (mkBox 1 1 1) bigBox
        True).map SpatialRelation.predicate := by
  rw [claim5_containing_rule defaultAdjustment false (mkBox 1 1 1) bigBox True
    bigBox_not_allInside]
  have h := bigBox_containingCond
  unfold SpatialObject.containingCond at h
  exact h

/-! ### Dictionary lemmas -/

/-- Keys of an association list are pairwise distinct (a Python dict
invariant). -/
def dictNodupKeys (d : Dict) : Prop := (d.map Prod.fst).Nodup

/-- When no entry matches the key, assignment appends. -/
lemma dictSet_of_not_any (d : Dict) (k : String) (v : DVal)
    (h : ¬ d.any (fun p => p.1 == k) = true) :
    dictSet d k v = d ++ [(k, v)] := by
  unfold dictSet
  rw [if_neg h]

/-- When some entry matches the key, assignment rewrites in place. -/
lemma dictSet_of_any (d : Dict) (k : String) (v : DVal)
    (h : d.any (fun p => p.1 == k) = true) :
    dictSet d k v = d.map (fun p => if p.1 == k then (k, v) else p) := by
  unfold dictSet
  rw [if_pos h]

/-- Without a matching entry, `find?` over the list misses. -/
lemma find?_eq_none_of_not_any (d : Dict) (k : String)
    (h : ¬ d.any (fun p => p.1 == k) = true) :
    d.find? (fun p => p.1 == k) = none := by
  rw [List.find?_eq_none]
  intro p hp
  intro hb
  exact h (List.any_eq_true.2 ⟨p, hp, hb⟩)

/-- Looking up a key right after assigning it yields the assigned value. -/
lemma dictGet_dictSet (d : Dict) (k : String) (v : DVal) :
    dictGet (dictSet d k v) k = some v := by
  by_cases h : d.any (fun p => p.1 == k) = true
  · rw [dictSet_of_any d k v h]
    induction d with
    | nil => simp at h
    | cons p d' ih =>
      by_cases hp : p.1 = k
      · simp [dictGet, List.find?, hp]
      · have hd : d'.any (fun q => q.1 == k) = true := by
          simpa [hp] using h
        have hb : (p.1 == k) = false := by simpa using hp
        unfold dictGet at ih ⊢
        simp only [List.map_cons, List.find?, hb, Bool.false_eq_true, if_false]
        exact ih hd
  · rw [dictSet_of_not_any d k v h]
    unfold dictGet
    rw [List.find?_append, find?_eq_none_of_not_any d k h]
    simp [List.find?]

/-- C10: `dataValue` after `setData` returns the stored value converted to
float — numbers pass through, bools convert as Python's
`isinstance(value, (int,))` path does — and `dataValue` yields 0.0 in every
other situation: no data table, key absent, or a stored non-numeric value
(string or list). -/
theorem claim10_dataValue_total (o : SpatialObject) (k : String) (v : DVal) :
    ((o.setData k v).dataValue k =
      (match v with
        | .num x => x
        | .bool b => if b then (1 : ℝ) else 0
        | _ => 0)) ∧
    (o.data = none → o.dataValue k = 0) ∧
    (∀ d, o.data = some d → dictGet d k = none → o.dataValue k = 0) ∧
    (∀ d s, o.data = some d → dictGet d k = some (.str s) →
      o.dataValue k = 0) ∧
    (∀ d l, o.data = some d → dictGet d k = some (.vec l) →
      o.dataValue k = 0) := by
  refine ⟨?_, ?_, ?_, ?_, ?_⟩
  · unfold SpatialObject.setData SpatialObject.dataValue
    rcases hdata : o.data with _ | d
    · simp [dictGet, List.find?]
      cases v <;> rfl
    · simp only
      rw [dictGet_dictSet]
      cases v <;> rfl
  · intro h
    simp [SpatialObject.dataValue, h]
  · intro d hd hget
    simp [SpatialObject.dataValue, hd, hget]
  · intro d s hd hget
    simp [SpatialObject.dataValue, hd, hget]
  · intro d l hd hget
    simp [SpatialObject.dataValue, hd, hget]

/-- Closed instantiation of `claim10_dataValue_total`: a float stored on a
fresh box reads back, and the fresh box (no data table) reads 0. -/
theorem claim10_witness :
    ((mkBox 1 1 1).setData "load" (.num 2.5)).dataValue "load" = 2.5 ∧
    (mkBox 1 1 1).dataValue "load" = 0 := by
  have h := claim10_dataValue_total (mkBox 1 1 1) "load" (.num 2.5)
  exact ⟨h.1, h.2.1 rfl⟩

/-! ### Round-trip machinery for `asDict`/`fromAny` -/

/-- The 41 keys of the fixed export schema, in order. -/
def exportKeys : List String :=
  ["id", "existence", "cause", "label", "type", "supertype", "position",
   "center", "width", "height", "depth", "length", "direction", "thin",
   "long", "equilateral", "real", "virtual", "conceptual", "moving",
   "perimeter", "footprint", "frontface", "sideface", "surface",
   "baseradius", "volume", "radius", "angle", "yaw", "azimuth", "lifespan",
   "updateInterval", "confidence", "immobile", "velocity", "motion",
   "shape", "look", "visible", "focused"]

lemma asDictSchema_keys (adj : SpatialAdjustment) (self : SpatialObject)
    (ls ui : ℝ) :
    (SpatialObject.asDictSchema adj self ls ui).map Prod.fst = exportKeys := rfl

/-- Whether a key belongs to one of the three fixed attribute lists
(computable form of the aux-loop test). -/
def isAttrKey (k : String) : Bool :=
  SpatialObject.stringAttributes.contains k ||
  SpatialObject.numericAttributes.contains k ||
  SpatialObject.booleanAttributes.contains k

lemma isAttrKey_iff (k : String) :
    isAttrKey k = true ↔
      (k ∈ SpatialObject.stringAttributes ∨ k ∈ SpatialObject.numericAttributes ∨
        k ∈ SpatialObject.booleanAttributes) := by
  unfold isAttrKey
  simp [List.contains, List.elem_iff, or_assoc]

/-- The 17 schema entries outside the attribute lists, in export order:
exactly what the auxiliary-data loop of `fromAny` absorbs into `data` when
re-importing an export. -/
def derivedEntries (adj : SpatialAdjustment) (self : SpatialObject)
    (ls ui : ℝ) : Dict :=
  (SpatialObject.asDictSchema adj self ls ui).filter (fun p => !(isAttrKey p.1))

lemma existence_named_value (e : SpatialExistence) :
    SpatialExistence.named e.value = e := by cases e <;> rfl

lemma cause_named_value (c : ObjectCause) :
    ObjectCause.named c.value = c := by cases c <;> rfl

lemma shape_named_value (sh : ObjectShape) :
    ObjectShape.named sh.value = sh := by cases sh <;> rfl

/-- Membership with duplicate-free keys determines the lookup. -/
lemma dictGet_of_mem_nodup (d : Dict) (p : String × DVal) (hp : p ∈ d)
    (hnd : dictNodupKeys d) : dictGet d p.1 = some p.2 := by
  induction d with
  | nil => simp at hp
  | cons q d' ih =>
    rcases List.mem_cons.1 hp with rfl | hp'
    · simp [dictGet, List.find?]
    · have hq : ¬(q.1 == p.1) = true := by
        simp only [beq_iff_eq]
        intro he
        unfold dictNodupKeys at hnd
        simp only [List.map_cons, List.nodup_cons] at hnd
        exact hnd.1 (he ▸ List.mem_map_of_mem Prod.fst hp')
      have hnd' : dictNodupKeys d' := by
        unfold dictNodupKeys at hnd ⊢
        simp only [List.map_cons, List.nodup_cons] at hnd
        exact hnd.2
      unfold dictGet at ih ⊢
      simp only [List.find?, hq]
      exact ih hp' hnd'

/-- A hit in the left list survives appending. -/
lemma dictGet_append_left (l1 l2 : Dict) (k : String) (v : DVal)
    (h : dictGet l1 k = some v) : dictGet (l1 ++ l2) k = some v := by
  unfold dictGet at h ⊢
  rcases hf : l1.find? (fun p => p.1 == k) with _ | e
  · rw [hf] at h
    simp at h
  · rw [List.find?_append, hf,
      show (some e).or (List.find? (fun p => p.1 == k) l2) = some e from rfl]
    rw [hf] at h
    exact h

/-- Mapping an in-place update over entries whose keys all differ from the
assigned key changes nothing. -/
lemma map_dictSet_id (d : Dict) (k : String) (v : DVal)
    (h : ∀ p ∈ d, ¬(p.1 == k) = true) :
    d.map (fun p => if p.1 == k then (k, v) else p) = d := by
  induction d with
  | nil => rfl
  | cons q d' ih =>
    simp only [List.map_cons]
    rw [if_neg (h q (List.mem_cons_self q d'))]
    rw [ih (fun p hp => h p (List.mem_cons_of_mem q hp))]

/-- Re-assigning the value an entry already holds leaves the dict
unchanged (keys duplicate-free). -/
lemma dictSet_eq_self (d : Dict) (k : String) (v : DVal)
    (hnd : dictNodupKeys d) (hget : dictGet d k = some v) :
    dictSet d k v = d := by
  induction d with
  | nil => simp [dictGet] at hget
  | cons q d' ih =>
    have hnd' : dictNodupKeys d' := by
      unfold dictNodupKeys at hnd ⊢
      simp only [List.map_cons, List.nodup_cons] at hnd
      exact hnd.2
    by_cases hq : q.1 = k
    · have hqb : (q.1 == k) = true := by simp [hq]
      have hv : q.2 = v := by
        unfold dictGet at hget
        simp only [List.find?, hqb] at hget
        simpa using hget
      have hany : (q :: d').any (fun p => p.1 == k) = true := by
        simp [hqb]
      rw [dictSet_of_any _ _ _ hany]
      have hd' : ∀ p ∈ d', ¬(p.1 == k) = true := by
        intro p hp
        simp only [beq_iff_eq]
        intro he
        unfold dictNodupKeys at hnd
        simp only [List.map_cons, List.nodup_cons] at hnd
        exact hnd.1 (hq ▸ he ▸ List.mem_map_of_mem Prod.fst hp)
      simp only [List.map_cons, hqb, if_true]
      rw [map_dictSet_id d' k v hd']
      rw [show ((k, v) : String × DVal) = q from by rw [← hq, ← hv]]
    · have hqb : (q.1 == k) = false := by simp [hq]
      have hget' : dictGet d' k = some v := by
        unfold dictGet at hget ⊢
        simpa only [List.find?, hqb] using hget
      by_cases hany' : d'.any (fun p => p.1 == k) = true
      · have hany : (q :: d').any (fun p => p.1 == k) = true := by
          simp only [List.any_cons, Bool.or_eq_true]
          exact Or.inr hany'
        rw [dictSet_of_any _ _ _ hany]
        simp only [List.map_cons, hqb, Bool.false_eq_true, if_false]
        rw [← dictSet_of_any _ _ _ hany', ih hnd' hget']
      · exfalso
        have := find?_eq_none_of_not_any d' k (by simpa using hany')
        unfold dictGet at hget'
        rw [this] at hget'
        simp at hget'

/-- Merging a dict whose keys are fresh and duplicate-free appends. -/
lemma dictUpdate_disjoint (d : Dict) : ∀ (base : Dict),
    (∀ p ∈ d, ∀ q ∈ base, q.1 ≠ p.1) → dictNodupKeys d →
    dictUpdate base d = base ++ d := by
  induction d with
  | nil =>
    intro base _ _
    simp [dictUpdate]
  | cons p d' ih =>
    intro base hdisj hnd
    have hnotany : ¬ base.any (fun q => q.1 == p.1) = true := by
      simp only [List.any_eq_true, beq_iff_eq]
      rintro ⟨q, hq, he⟩
      exact hdisj p (List.mem_cons_self p d') q hq he
    have hset : dictSet base p.1 p.2 = base ++ [p] := by
      rw [dictSet_of_not_any _ _ _ hnotany]
    have hnd' : dictNodupKeys d' := by
      unfold dictNodupKeys at hnd ⊢
      simp only [List.map_cons, List.nodup_cons] at hnd
      exact hnd.2
    have hdisj' : ∀ r ∈ d', ∀ q ∈ base ++ [p], q.1 ≠ r.1 := by
      intro r hr q hq
      rcases List.mem_append.1 hq with hq | hq
      · exact hdisj r (List.mem_cons_of_mem p hr) q hq
      · rcases List.mem_singleton.1 hq with rfl
        unfold dictNodupKeys at hnd
        simp only [List.map_cons, List.nodup_cons] at hnd
        intro he
        exact hnd.1 (he ▸ List.mem_map_of_mem Prod.fst hr)
    calc dictUpdate base (p :: d')
        = dictUpdate (dictSet base p.1 p.2) d' := by
          unfold dictUpdate
          simp [List.foldl_cons]
      _ = dictUpdate (base ++ [p]) d' := by rw [hset]
      _ = (base ++ [p]) ++ d' := ih (base ++ [p]) hdisj' hnd'
      _ = base ++ p :: d' := by simp

/-- The aux loop over entries whose keys are all new extends the data
table by exactly the non-attribute entries, in order. -/
lemma auxFold_fresh (entries : Dict) : ∀ (o : SpatialObject) (d0 : Dict),
    o.data = some d0 →
    (∀ p ∈ entries, ∀ q ∈ d0, q.1 ≠ p.1) →
    dictNodupKeys entries →
    entries.foldl SpatialObject.auxStep o =
      { o with data := some (d0 ++ entries.filter (fun p => !(isAttrKey p.1))) } := by
  induction entries with
  | nil =>
    intro o d0 ho _ _
    simp only [List.foldl_nil, List.filter_nil, List.append_nil]
    rw [← ho]
  | cons p rest ih =>
    intro o d0 ho hdisj hnd
    have hnd' : dictNodupKeys rest := by
      unfold dictNodupKeys at hnd ⊢
      simp only [List.map_cons, List.nodup_cons] at hnd
      exact hnd.2
    simp only [List.foldl_cons]
    by_cases hattr : p.1 ∈ SpatialObject.stringAttributes ∨
        p.1 ∈ SpatialObject.numericAttributes ∨
        p.1 ∈ SpatialObject.booleanAttributes
    · have hstep : SpatialObject.auxStep o p = o := by
        unfold SpatialObject.auxStep
        rw [if_pos hattr]
      have hfil : (!(isAttrKey p.1)) = false := by
        rw [(isAttrKey_iff p.1).2 hattr]
        rfl
      rw [hstep, ih o d0 ho
        (fun r hr q hq => hdisj r (List.mem_cons_of_mem p hr) q hq) hnd']
      simp [List.filter_cons, hfil]
    · have hnotany : ¬ d0.any (fun q => q.1 == p.1) = true := by
        simp only [List.any_eq_true, beq_iff_eq]
        rintro ⟨q, hq, he⟩
        exact hdisj p (List.mem_cons_self p rest) q hq he
      have hstep : SpatialObject.auxStep o p =
          { o with data := some (d0 ++ [p]) } := by
        unfold SpatialObject.auxStep SpatialObject.setData
        rw [if_neg hattr]
        simp only [ho]
        rw [dictSet_of_not_any _ _ _ hnotany]
      have hdisj' : ∀ r ∈ rest, ∀ q ∈ d0 ++ [p], q.1 ≠ r.1 := by
        intro r hr q hq
        rcases List.mem_append.1 hq with hq | hq
        · exact hdisj r (List.mem_cons_of_mem p hr) q hq
        · rcases List.mem_singleton.1 hq with rfl
          unfold dictNodupKeys at hnd
          simp only [List.map_cons, List.nodup_cons] at hnd
          intro he
          exact hnd.1 (he ▸ List.mem_map_of_mem Prod.fst hr)
      have hfil : (!(isAttrKey p.1)) = true := by
        rw [show isAttrKey p.1 = false from by
          rcases hb : isAttrKey p.1
          · rfl
          · exact absurd ((isAttrKey_iff p.1).1 hb) hattr]
        rfl
      rw [hstep, ih _ (d0 ++ [p]) rfl hdisj' hnd']
      simp only [List.filter_cons, hfil, cond_true]
      simp

/-- The aux loop over entries already present with identical values leaves
the object unchanged. -/
lemma auxFold_existing (entries : Dict) : ∀ (o : SpatialObject) (d1 : Dict),
    o.data = some d1 →
    (∀ p ∈ entries, dictGet d1 p.1 = some p.2) →
    dictNodupKeys d1 →
    entries.foldl SpatialObject.auxStep o = o := by
  induction entries with
  | nil =>
    intro o d1 _ _ _
    rfl
  | cons p rest ih =>
    intro o d1 ho hmem hnd
    simp only [List.foldl_cons]
    by_cases hattr : p.1 ∈ SpatialObject.stringAttributes ∨
        p.1 ∈ SpatialObject.numericAttributes ∨
        p.1 ∈ SpatialObject.booleanAttributes
    · have hstep : SpatialObject.auxStep o p = o := by
        unfold SpatialObject.auxStep
        rw [if_pos hattr]
      rw [hstep]
      exact ih o d1 ho (fun r hr => hmem r (List.mem_cons_of_mem p hr)) hnd
    · have hstep : SpatialObject.auxStep o p = o := by
        unfold SpatialObject.auxStep SpatialObject.setData
        rw [if_neg hattr]
        simp only [ho]
        rw [dictSet_eq_self d1 p.1 p.2 hnd (hmem p (List.mem_cons_self p rest))]
        rw [← ho]
      rw [hstep]
      exact ih o d1 ho (fun r hr => hmem r (List.mem_cons_of_mem p hr)) hnd

/-- An attribute-listed key is skipped by the aux loop. -/
lemma auxStep_skip (k : String) (hk : isAttrKey k = true) (o : SpatialObject)
    (v : DVal) : SpatialObject.auxStep o (k, v) = o := by
  unfold SpatialObject.auxStep
  rw [if_pos ((isAttrKey_iff k).1 hk)]

/-- A fresh non-attribute key lands in a previously absent data table. -/
lemma auxStep_start (k : String) (hk : isAttrKey k = false) (o : SpatialObject)
    (ho : o.data = none) (v : DVal) :
    SpatialObject.auxStep o (k, v) = { o with data := some [(k, v)] } := by
  unfold SpatialObject.auxStep SpatialObject.setData
  rw [if_neg (fun hc => by rw [(isAttrKey_iff k).2 hc] at hk; exact Bool.noConfusion hk)]
  simp only [ho]

/-- Rebuilding a vector from its components is the identity. -/
lemma vector3_eta (v : Vector3) : (⟨v.x, v.y, v.z⟩ : Vector3) = v := rfl

/-- Rebuilding a confidence record from its components is the identity. -/
lemma objectConfidence_eta (c : ObjectConfidence) :
    (⟨c.pose, c.dimension, c.label, c.look⟩ : ObjectConfidence) = c := rfl

/-- Re-importing an object's own id is a no-op, whether or not it is empty. -/
lemma id_reimport (self : SpatialObject) :
    (if self.id = "" then self else { self with id := self.id }) = self := by
  split <;> rfl

/-- `setPosition` always stores the given position. -/
lemma setPosition_position (self : SpatialObject) (pos : Vector3) (interval : ℝ) :
    (self.setPosition pos interval).position = pos := by
  unfold SpatialObject.setPosition
  split <;> rfl

/-- `setPosition` never touches the auxiliary data table. -/
lemma setPosition_data (self : SpatialObject) (pos : Vector3) (interval : ℝ) :
    (self.setPosition pos interval).data = self.data := by
  unfold SpatialObject.setPosition
  split <;> rfl

/-- Key extraction commutes with the aux-loop filter. -/
lemma map_fst_filter (l : Dict) :
    (l.filter (fun p => !(isAttrKey p.1))).map Prod.fst =
      (l.map Prod.fst).filter (fun k => !(isAttrKey k)) := by
  induction l with
  | nil => rfl
  | cons p rest ih =>
    simp only [List.filter_cons, List.map_cons]
    rcases hb : isAttrKey p.1 with _ | _ <;> simp [hb, ih]

/-- The keys of the 17 absorbed derived entries, independent of the object. -/
lemma derivedEntries_keys (adj : SpatialAdjustment) (self : SpatialObject)
    (ls ui : ℝ) :
    (derivedEntries adj self ls ui).map Prod.fst =
      exportKeys.filter (fun k => !(isAttrKey k)) := by
  unfold derivedEntries
  rw [map_fst_filter, asDictSchema_keys]

/-- Running `fromAny` on any input that answers the sixteen lookups the way a
self-export does reduces to the auxiliary-data loop over an object whose pose,
extents, angle and classification match the original. -/
lemma fromAny_export_run (self : SpatialObject) (input : Dict) (ui2 : ℝ)
    (hid : dictGet input "id" = some (.str self.id))
    (hpos : dictGet input "position" =
      some (.vec [self.position.x, self.position.y, self.position.z]))
    (hw : dictGet input "width" = some (.num self.width))
    (hh : dictGet input "height" = some (.num self.height))
    (hdp : dictGet input "depth" = some (.num self.depth))
    (hang : dictGet input "angle" = some (.num self.angle))
    (hlab : dictGet input "label" = some (.str self.label))
    (hty : dictGet input "type" = some (.str self.type))
    (hsty : dictGet input "supertype" = some (.str self.supertype))
    (hconf : dictGet input "confidence" = some (.conf self.confidence.pose
      self.confidence.dimension self.confidence.label self.confidence.look))
    (hcz : dictGet input "cause" = some (.str self.cause.value))
    (hexi : dictGet input "existence" = some (.str self.existence.value))
    (hsh : dictGet input "shape" = some (.str self.shape.value))
    (hlk : dictGet input "look" = some (.str self.look))
    (himm : dictGet input "immobile" = some (.bool self.immobile))
    (hvis : dictGet input "visible" = some (.bool self.visible))
    (hfoc : dictGet input "focused" = some (.bool self.focused)) :
    ∃ o4, SpatialObject.fromAny self input ui2 =
        some (input.foldl SpatialObject.auxStep o4) ∧
      o4.position = self.position ∧ o4.width = self.width ∧
      o4.height = self.height ∧ o4.depth = self.depth ∧ o4.angle = self.angle ∧
      o4.existence = self.existence ∧ o4.cause = self.cause ∧
      o4.shape = self.shape ∧ o4.data = self.data := by
  refine ⟨{ self.setPosition self.position ui2 with
      width := self.width
      height := self.height
      depth := self.depth
      angle := self.angle
      label := self.label
      type := self.type
      supertype := self.supertype
      confidence := self.confidence
      cause := self.cause
      existence := self.existence
      immobile := self.immobile
      shape := self.shape
      look := self.look
      visible := self.visible
      focused := self.focused }, ?_, ?_, ?_, ?_, ?_, ?_, ?_, ?_, ?_, ?_⟩
  · unfold SpatialObject.fromAny
    simp only [hid, hpos, hw, hh, hdp, hang, hlab, hty, hsty, hconf, hcz, hexi,
      hsh, hlk, himm, hvis, hfoc, SpatialObject.getNumOr, SpatialObject.getNum2Or,
      SpatialObject.getStrOr, SpatialObject.getTruthyOr, SpatialObject.toFloat,
      Option.bind_eq_bind, Option.some_bind, id_reimport, vector3_eta,
      objectConfidence_eta, existence_named_value, cause_named_value,
      shape_named_value]
  · exact setPosition_position self self.position ui2
  · rfl
  · rfl
  · rfl
  · rfl
  · rfl
  · rfl
  · rfl
  · exact setPosition_data self self.position ui2

/-- Full round-trip behaviour of `fromAny` on `asDict` output, for an object
whose auxiliary table has duplicate-free keys disjoint from the export schema:
pose, extents, angle and classification are reproduced, and the data table
comes back extended by exactly the 17 derived schema entries. -/
lemma fromAny_asDict_spec (adj : SpatialAdjustment) (self : SpatialObject)
    (ls ui ui2 : ℝ) (d0 : Dict)
    (hdata : self.data = some d0) (hnd : dictNodupKeys d0)
    (hdisj : ∀ p ∈ d0, p.1 ∉ exportKeys) :
    ∃ o2, SpatialObject.fromAny self (SpatialObject.asDict adj self ls ui) ui2 =
        some o2 ∧
      o2.position = self.position ∧ o2.width = self.width ∧
      o2.height = self.height ∧ o2.depth = self.depth ∧ o2.angle = self.angle ∧
      o2.existence = self.existence ∧ o2.cause = self.cause ∧
      o2.shape = self.shape ∧
      o2.data = some (d0 ++ derivedEntries adj self ls ui) := by
  have hschema : SpatialObject.asDict adj self ls ui =
      SpatialObject.asDictSchema adj self ls ui ++ d0 := by
    unfold SpatialObject.asDict
    rw [hdata]
    apply dictUpdate_disjoint
    · intro p hp q hq he
      have hkey : q.1 ∈ exportKeys := by
        rw [← asDictSchema_keys adj self ls ui]
        exact List.mem_map_of_mem Prod.fst hq
      exact hdisj p hp (he ▸ hkey)
    · exact hnd
  rw [hschema]
  obtain ⟨o4, hrun, hp4, hw4, hh4, hd4, ha4, he4, hc4, hs4, hdata4⟩ :=
    fromAny_export_run self (SpatialObject.asDictSchema adj self ls ui ++ d0) ui2
      (dictGet_append_left _ _ _ _ rfl) (dictGet_append_left _ _ _ _ rfl)
      (dictGet_append_left _ _ _ _ rfl) (dictGet_append_left _ _ _ _ rfl)
      (dictGet_append_left _ _ _ _ rfl) (dictGet_append_left _ _ _ _ rfl)
      (dictGet_append_left _ _ _ _ rfl) (dictGet_append_left _ _ _ _ rfl)
      (dictGet_append_left _ _ _ _ rfl) (dictGet_append_left _ _ _ _ rfl)
      (dictGet_append_left _ _ _ _ rfl) (dictGet_append_left _ _ _ _ rfl)
      (dictGet_append_left _ _ _ _ rfl) (dictGet_append_left _ _ _ _ rfl)
      (dictGet_append_left _ _ _ _ rfl) (dictGet_append_left _ _ _ _ rfl)
      (dictGet_append_left _ _ _ _ rfl)
  have hndS : dictNodupKeys (SpatialObject.asDictSchema adj self ls ui) := by
    unfold dictNodupKeys
    rw [asDictSchema_keys]
    decide
  have hdisjS : ∀ p ∈ SpatialObject.asDictSchema adj self ls ui,
      ∀ q ∈ d0, q.1 ≠ p.1 := by
    intro p hp q hq he
    have hkey : p.1 ∈ exportKeys := by
      rw [← asDictSchema_keys adj self ls ui]
      exact List.mem_map_of_mem Prod.fst hp
    exact hdisj q hq (he ▸ hkey)
  rw [List.foldl_append] at hrun
  rw [auxFold_fresh (SpatialObject.asDictSchema adj self ls ui) o4 d0
    (hdata4.trans hdata) hdisjS hndS] at hrun
  have hmem : ∀ p ∈ d0,
      dictGet (d0 ++ derivedEntries adj self ls ui) p.1 = some p.2 :=
    fun p hp => dictGet_append_left _ _ _ _ (dictGet_of_mem_nodup d0 p hp hnd)
  have hndd1 : dictNodupKeys (d0 ++ derivedEntries adj self ls ui) := by
    unfold dictNodupKeys
    rw [List.map_append, derivedEntries_keys, List.nodup_append]
    refine ⟨hnd, by decide, ?_⟩
    intro a ha hb
    obtain ⟨p, hp, rfl⟩ := List.mem_map.1 ha
    exact hdisj p hp (List.mem_of_mem_filter hb)
  rw [auxFold_existing d0 _ (d0 ++ derivedEntries adj self ls ui) rfl hmem hndd1]
    at hrun
  exact ⟨_, hrun, hp4, hw4, hh4, hd4, ha4, he4, hc4, hs4, rfl⟩

/-- A unit box carrying an (empty) auxiliary data table. -/
def dataBox : SpatialObject := { mkBox 1 1 1 with data := some [] }

/-- C9 (amended): re-importing a full export (`fromAny` of `asDict`) reproduces
position, extents, angle and the existence/cause/shape classification, but the
auxiliary data table is not reproduced identically: it comes back extended by
the 17 exported derived entries (center, length, direction, thin, long,
equilateral aside — precisely every schema key outside the three attribute
lists: center, length, direction, perimeter, footprint, frontface, sideface,
surface, baseradius, volume, radius, yaw, azimuth, lifespan, updateInterval,
velocity, motion), because the aux-import loop stores every input key not in
the attribute lists into `data`. Stated for an object whose auxiliary keys are
duplicate-free and disjoint from the export schema. -/
theorem claim9_roundtrip (adj : SpatialAdjustment) (self : SpatialObject)
    (ls ui ui2 : ℝ) (d0 : Dict)
    (hdata : self.data = some d0) (hnd : dictNodupKeys d0)
    (hdisj : ∀ p ∈ d0, p.1 ∉ exportKeys) :
    ∃ o2, SpatialObject.fromAny self (SpatialObject.asDict adj self ls ui) ui2 =
        some o2 ∧
      o2.position = self.position ∧ o2.width = self.width ∧
      o2.height = self.height ∧ o2.depth = self.depth ∧ o2.angle = self.angle ∧
      o2.existence = self.existence ∧ o2.cause = self.cause ∧
      o2.shape = self.shape ∧
      o2.data = some (d0 ++ derivedEntries adj self ls ui) :=
  fromAny_asDict_spec adj self ls ui ui2 d0 hdata hnd hdisj

/-- The round-trip is not the identity on the auxiliary data: a box exported
with an empty table comes back with the derived entries stored in it. -/
theorem claim9_counterexample :
    ∃ o2, SpatialObject.fromAny dataBox
        (SpatialObject.asDict defaultAdjustment dataBox 0 0) 0 = some o2 ∧
      o2.data ≠ dataBox.data := by
  obtain ⟨o2, hrun, -, -, -, -, -, -, -, -, hdata⟩ :=
    fromAny_asDict_spec defaultAdjustment dataBox 0 0 0 [] rfl
      (by simp [dictNodupKeys]) (by simp)
  refine ⟨o2, hrun, ?_⟩
  rw [hdata]
  intro h
  have h2 : ([] : Dict) ++ derivedEntries defaultAdjustment dataBox 0 0 = [] :=
    Option.some.inj h
  rw [List.nil_append] at h2
  have hk := congrArg (List.map Prod.fst) h2
  rw [derivedEntries_keys, List.map_nil] at hk
  exact absurd hk (by decide)

/-- Closed instantiation of `claim9_roundtrip` on a box carrying an empty
auxiliary table, with its hypotheses discharged there. -/
theorem claim9_witness :
    dataBox.data = some [] ∧
    (∃ o2, SpatialObject.fromAny dataBox
        (SpatialObject.asDict defaultAdjustment dataBox 1 1) 1 = some o2 ∧
      o2.position = dataBox.position ∧ o2.width = dataBox.width ∧
      o2.height = dataBox.height ∧ o2.depth = dataBox.depth ∧
      o2.angle = dataBox.angle ∧ o2.existence = dataBox.existence ∧
      o2.cause = dataBox.cause ∧ o2.shape = dataBox.shape ∧
      o2.data = some ([] ++ derivedEntries defaultAdjustment dataBox 1 1)) :=
  ⟨rfl, claim9_roundtrip defaultAdjustment dataBox 1 1 1 [] rfl
    (by simp [dictNodupKeys]) (by simp)⟩

end SRpy
